import Mathlib

/-!
# The plugin dispatch layer of `mojaisolator`

A shallow embedding of

* `vendor/src/github.com/mojaisolator/plugin/isolhttps.go` (package `isolhttps`): the
  route table built by `main`, the protocol handlers and the response helpers;
* `vendor/src/github.com/mojaisolator/mojaipam/mojaipam.go` (package `mojaipam`): the six
  handlers installed by `Handler.initMux`.

Go strings are Lean strings (sequences of Unicode scalar values), a Go `error` is its
message (`err.Error()`), a Go `map[string]string` is an association list with `none` for
the nil map. The pieces of the Go standard library the handlers go through
(`http.ResponseWriter`, `http.Error`, `fmt.Sprintf`, `encoding/json`, `net.ParseIP`,
`net.IPNet.String`) are modelled in the namespace `Go`.
-/

namespace Go

/-- A Go `error` value: `none` is `nil`, `some m` an error whose `Error()` is `m`. -/
abbrev GoError := Option String

/-! ## `net/http`: the response writer -/

/-- Status code `http.StatusOK`. -/
def StatusOK : Nat := 200
/-- Status code `http.StatusBadRequest`. -/
def StatusBadRequest : Nat := 400
/-- Status code `http.StatusNotFound`. -/
def StatusNotFound : Nat := 404
/-- Status code `http.StatusInternalServerError`. -/
def StatusInternalServerError : Nat := 500

/-- What a handler has done to its `http.ResponseWriter`: the header map, whether the
status line is already out and with which code, and the data of every `Write` call in
order. -/
structure ResponseWriter where
  header : List (String × String)
  wroteHeader : Bool
  status : Nat
  writes : List String
  deriving DecidableEq, Repr

namespace ResponseWriter

/-- The writer a handler receives: nothing set, nothing written. -/
def fresh : ResponseWriter := ⟨[], false, 0, []⟩

/-- Header assignment `w.Header().Set(key, value)`: replaces the values under `key`. -/
def Set (w : ResponseWriter) (key value : String) : ResponseWriter :=
  { w with header := (w.header.filter fun kv => kv.1 != key) ++ [(key, value)] }

/-- Lookup `w.Header().Get(key)`. -/
def Get (w : ResponseWriter) (key : String) : Option String :=
  (w.header.find? fun kv => kv.1 == key).map Prod.snd

/-- Method `w.WriteHeader(code)`: the first call fixes the status, later calls are
ignored. -/
def WriteHeader (w : ResponseWriter) (code : Nat) : ResponseWriter :=
  if w.wroteHeader then w else { w with wroteHeader := true, status := code }

/-- Method `w.Write(data)`: sends the header with status 200 when none was written, then
appends the data. -/
def Write (w : ResponseWriter) (data : String) : ResponseWriter :=
  let w1 := if w.wroteHeader then w else w.WriteHeader StatusOK
  { w1 with writes := w1.writes ++ [data] }

/-- The response body: all written data in order. -/
def body (w : ResponseWriter) : String := String.join w.writes

end ResponseWriter

/-- Function `http.Error(w, error, code)`: a plain-text reply with the given status. -/
def Error (w : ResponseWriter) (error : String) (code : Nat) : ResponseWriter :=
  let w := w.Set "Content-Type" "text/plain; charset=utf-8"
  let w := w.Set "X-Content-Type-Options" "nosniff"
  let w := w.WriteHeader code
  w.Write (error ++ "\n")

/-- Function `http.NotFound(w, r)`. -/
def NotFound (w : ResponseWriter) : ResponseWriter :=
  Error w "404 page not found" StatusNotFound

/-! ## `fmt.Sprintf` without operands

`errorResponse(w, err.Error())` hands the message to `fmt.Sprintf` as the format string,
with an empty operand list. The functions below follow `(*pp).doPrintf` for `len(a) = 0`.
-/

/-- The flag characters skipped after a percent sign. -/
def isFlag (c : Char) : Bool :=
  c == '#' || c == '0' || c == '+' || c == '-' || c == ' '

/-- Function `tooLarge`. -/
def tooLarge (x : Nat) : Bool := x > 1000000

/-- The digit loop of `parsenum` from the current position: `none` on overflow (the caller
then stands at the end of the text), otherwise whether a digit was read and the rest. -/
def parsenumLoop : Nat → Bool → List Char → Option (Bool × List Char)
  | num, isnum, c :: cs =>
    if c.isDigit then
      if tooLarge num then none
      else parsenumLoop (num * 10 + (c.toNat - '0'.toNat)) true cs
    else some (isnum, c :: cs)
  | _, isnum, [] => some (isnum, [])

/-- Function `parsenum(s, i, end)` with `end = len(s)`: whether a number was read, and the
text after it. -/
def parsenum (s : List Char) : Bool × List Char :=
  match parsenumLoop 0 false s with
  | none => (false, [])
  | some r => r

/-- Function `parseArgNumber` on text that starts with an opening bracket: the number of
characters to skip and whether `[n]` was well formed. -/
def parseArgNumber (s : List Char) : Nat × Bool :=
  if s.length < 3 then (1, false)
  else
    match (s.drop 1).indexOf? ']' with
    | none => (1, false)
    | some k =>
      -- the closing bracket stands at index `k + 1`; the digits are `s[1 .. k+1)`
      let digits := (s.drop 1).take k
      match parsenumLoop 0 false digits with
      | some (true, []) => (k + 2, true)
      | _ => (k + 2, false)

/-- Method `argNumber` with no operands: the text after an argument index, whether one was
found, and whether the directive is still well indexed. An index can never be in range, so
any bracket spoils the directive. -/
def argNumber (s : List Char) (good : Bool) : List Char × Bool × Bool :=
  match s with
  | '[' :: _ =>
    let (wid, ok) := parseArgNumber s
    (s.drop wid, ok, false)
  | _ => (s, false, good)

/-- One directive, from the character after the percent sign: the output it produces and
the text left. -/
def directive (s : List Char) : List Char × List Char :=
  let s := s.dropWhile isFlag
  let (s, afterIndex, good) := argNumber s true
  -- width
  let (out, s, afterIndex, good) : List Char × List Char × Bool × Bool :=
    match s with
    | '*' :: s1 => ("%!(BADWIDTH)".data, s1, false, good)
    | _ =>
      let (widPresent, s1) := parsenum s
      ([], s1, afterIndex, if afterIndex && widPresent then false else good)
  -- precision
  let (out, s, afterIndex, good) : List Char × List Char × Bool × Bool :=
    match s with
    | '.' :: s1 =>
      let good := if afterIndex then false else good
      let (s2, afterIndex, good) := argNumber s1 good
      match s2 with
      | '*' :: s3 => (out ++ "%!(BADPREC)".data, s3, false, good)
      | _ => (out, (parsenum s2).2, afterIndex, good)
    | _ => (out, s, afterIndex, good)
  let (s, good) : List Char × Bool :=
    if afterIndex then (s, good) else
      let (s1, _, good) := argNumber s good
      (s1, good)
  match s with
  | [] => (out ++ "%!(NOVERB)".data, [])
  | verb :: rest =>
    if verb == '%' then (out ++ ['%'], rest)
    else if !good then (out ++ "%!".data ++ [verb] ++ "(BADINDEX)".data, rest)
    else (out ++ "%!".data ++ [verb] ++ "(MISSING)".data, rest)

/-- The format loop of `doPrintf` with no operands; the first argument bounds the number
of steps and is the length of the format. -/
def doPrintf : Nat → List Char → List Char
  | 0, _ => []
  | _, [] => []
  | n + 1, c :: cs =>
    if c == '%' then
      let r := directive cs
      r.1 ++ doPrintf n r.2
    else c :: doPrintf n cs

/-- Function `fmt.Sprintf(format)` with the empty operand list. -/
def Sprintf (format : String) : String :=
  String.mk (doPrintf format.length format.data)

/-! ## `encoding/json`: the encoder at strings, string maps and string slices -/

/-- A Go `map[string]string`; `none` is the nil map. Keys are distinct. -/
abbrev StrMap := Option (List (String × String))

/-- The backslash. -/
def backslash : Char := Char.ofNat 92

/-- The table `hex = "0123456789abcdef"`. -/
def hexDigit (n : Nat) : Char := "0123456789abcdef".data.getD n '0'

/-- What the encoder writes for one character of a string, HTML escaping on: quotes and
backslashes get a backslash, newline, carriage return and tab their short form, other
control characters and `<`, `>`, `&` the form `\u00XX`, and U+2028, U+2029 the form
`\u202X`. -/
def encodeChar (c : Char) : List Char :=
  if c == '"' || c == backslash then [backslash, c]
  else if c == '\n' then [backslash, 'n']
  else if c == '\r' then [backslash, 'r']
  else if c == '\t' then [backslash, 't']
  else if c.toNat < 32 || c == '<' || c == '>' || c == '&' then
    [backslash, 'u', '0', '0', hexDigit (c.toNat / 16), hexDigit (c.toNat % 16)]
  else if c.toNat == 8232 || c.toNat == 8233 then
    [backslash, 'u', '2', '0', '2', hexDigit (c.toNat % 16)]
  else [c]

/-- The JSON text of a Go string. -/
def encodeString (s : String) : String :=
  String.mk (['"'] ++ s.data.flatMap encodeChar ++ ['"'])

/-- Go string comparison `a < b`: lexicographic, character by character. -/
def ltChars : List Char → List Char → Bool
  | [], [] => false
  | [], _ :: _ => true
  | _ :: _, [] => false
  | a :: as, b :: bs => a.toNat < b.toNat || (a.toNat == b.toNat && ltChars as bs)

/-- Insertion of a key-value pair into a list sorted by key. -/
def insertSorted (kv : String × String) : List (String × String) → List (String × String)
  | [] => [kv]
  | x :: xs => if ltChars kv.1.data x.1.data then kv :: x :: xs else x :: insertSorted kv xs

/-- The texts `xs` joined with commas. -/
def joinComma : List String → String
  | [] => ""
  | [x] => x
  | x :: y :: ys => x ++ "," ++ joinComma (y :: ys)

/-- The encoder writes the keys of a map in sorted order. -/
def sortKeys (m : List (String × String)) : List (String × String) :=
  m.foldr insertSorted []

/-- The JSON text of a `map[string]string`: `null` for the nil map, otherwise the object
of its entries, keys sorted. -/
def encodeStrMap : StrMap → String
  | none => "null"
  | some m =>
    "\x7b" ++ joinComma ((sortKeys m).map fun kv =>
      encodeString kv.1 ++ ":" ++ encodeString kv.2) ++ "\x7d"

/-- The JSON text of a `[]string`; the empty list stands for the nil slice, which is
written `null`. -/
def encodeStrSlice : List String → String
  | [] => "null"
  | xs => "[" ++ joinComma (xs.map encodeString) ++ "]"

/-- The JSON text of a struct from the texts of its fields, in declaration order. -/
def encodeStruct (fields : List (String × String)) : String :=
  "\x7b" ++ joinComma (fields.map fun kv => encodeString kv.1 ++ ":" ++ kv.2) ++ "\x7d"

/-- Method `json.NewEncoder(w).Encode(v)` for a value whose marshalling gives `text` or
fails: on success the text and a newline go out in one write, on failure nothing is
written and the error is returned. -/
def Encode (w : ResponseWriter) (text : Except String String) : ResponseWriter × Option String :=
  match text with
  | .ok t => (w.Write (t ++ "\n"), none)
  | .error e => (w, some e)

/-- Marshalling of a pointer: `null` for the nil pointer. -/
def encodePtr {α : Type} (enc : α → Except String String) : Option α → Except String String
  | none => .ok "null"
  | some v => enc v

/-! ## `net`: textual IP addresses -/

/-- A Go `net.IP`: a byte slice; the empty list is the nil address. -/
abbrev IP := List Nat

/-- A Go `net.IPNet`: network number and mask, each a byte slice. -/
structure IPNet where
  IP : IP
  Mask : List Nat
  deriving DecidableEq, Repr

/-- The constant `big = 0xFFFFFF` of the number readers. -/
def big : Nat := 16777215

/-- The loop of `dtoi`: `none` on overflow, otherwise the value, whether a digit was read
and the text after the digits. -/
def dtoiLoop : Nat → Bool → List Char → Option (Nat × Bool × List Char)
  | n, any, c :: cs =>
    if c.isDigit then
      let n1 := n * 10 + (c.toNat - '0'.toNat)
      if n1 ≥ big then none else dtoiLoop n1 true cs
    else some (n, any, c :: cs)
  | n, any, [] => some (n, any, [])

/-- Function `dtoi`: the decimal number at the head of the text and the rest, or `none`
when there is no digit or the number is too big. -/
def dtoi (s : List Char) : Option (Nat × List Char) :=
  match dtoiLoop 0 false s with
  | some (n, true, rest) => some (n, rest)
  | _ => none

/-- The value of a hexadecimal digit. -/
def hexVal (c : Char) : Option Nat :=
  if '0' ≤ c ∧ c ≤ '9' then some (c.toNat - '0'.toNat)
  else if 'a' ≤ c ∧ c ≤ 'f' then some (c.toNat - 'a'.toNat + 10)
  else if 'A' ≤ c ∧ c ≤ 'F' then some (c.toNat - 'A'.toNat + 10)
  else none

/-- The loop of `xtoi`. -/
def xtoiLoop : Nat → Bool → List Char → Option (Nat × Bool × List Char)
  | n, any, c :: cs =>
    match hexVal c with
    | some d =>
      let n1 := n * 16 + d
      if n1 ≥ big then none else xtoiLoop n1 true cs
    | none => some (n, any, c :: cs)
  | n, any, [] => some (n, any, [])

/-- Function `xtoi`: the hexadecimal number at the head of the text and the rest. -/
def xtoi (s : List Char) : Option (Nat × List Char) :=
  match xtoiLoop 0 false s with
  | some (n, true, rest) => some (n, rest)
  | _ => none

/-- Function `IPv4(a, b, c, d)`: the 16-byte form of an IPv4 address. -/
def IPv4 (a b c d : Nat) : IP := [0, 0, 0, 0, 0, 0, 0, 0, 0, 0, 255, 255, a, b, c, d]

/-- The octet loop of `parseIPv4`: `j` octets are read already, `4 - j` remain. -/
def parseIPv4Loop : Nat → Bool → List Char → Option (List Nat)
  | 0, _, s => if s.isEmpty then some [] else none
  | k + 1, first, s =>
    if s.isEmpty then none
    else
      let s1 : Option (List Char) :=
        if first then some s else
          match s with
          | '.' :: t => some t
          | _ => none
      match s1 with
      | none => none
      | some t =>
        match dtoi t with
        | none => none
        | some (n, rest) =>
          if n > 255 then none
          else (parseIPv4Loop k false rest).map (n :: ·)

/-- Function `parseIPv4`: dotted decimal to the 16-byte form, nil when malformed. -/
def parseIPv4 (s : List Char) : IP :=
  match parseIPv4Loop 4 true s with
  | some [a, b, c, d] => IPv4 a b c d
  | _ => []

/-- The group loop of `parseIPv6`: `ip` holds the bytes read so far, `ellipsis` the
position of `::` if seen. Gives the bytes, the ellipsis and the unread text when the loop
is left, `none` when the address is rejected inside the loop. -/
def parseIPv6Loop : Nat → List Nat → Option Nat → List Char →
    Option (List Nat × Option Nat × List Char)
  | 0, ip, ellipsis, s => some (ip, ellipsis, s)
  | fuel + 1, ip, ellipsis, s =>
    if ip.length ≥ 16 then some (ip, ellipsis, s)
    else
      match xtoi s with
      | none => none
      | some (n, rest) =>
        if n > 65535 then none
        else
          match rest with
          | '.' :: _ =>
            if ellipsis.isNone && ip.length != 12 then none
            else if ip.length + 4 > 16 then none
            else
              match parseIPv4 s with
              | [] => none
              | ip4 => some (ip ++ ip4.drop 12, ellipsis, [])
          | [] => some (ip ++ [n / 256, n % 256], ellipsis, [])
          | [_] => none
          | c :: d :: rest2 =>
            if c != ':' then none
            else
              let ip1 := ip ++ [n / 256, n % 256]
              if d == ':' then
                if ellipsis.isSome then none
                else if rest2.isEmpty then some (ip1, some ip1.length, [])
                else parseIPv6Loop fuel ip1 (some ip1.length) rest2
              else parseIPv6Loop fuel ip1 ellipsis (d :: rest2)

/-- Function `parseIPv6` without zone: the 16 bytes, nil when malformed. -/
def parseIPv6 (s : List Char) : IP :=
  let start : Option Nat × List Char :=
    match s with
    | ':' :: ':' :: t => (some 0, t)
    | _ => (none, s)
  if start.1.isSome && start.2.isEmpty then List.replicate 16 0
  else
    match parseIPv6Loop 8 [] start.1 start.2 with
    | none => []
    | some (ip, ellipsis, rest) =>
      if !rest.isEmpty then []
      else if ip.length < 16 then
        match ellipsis with
        | none => []
        | some e => ip.take e ++ List.replicate (16 - ip.length) 0 ++ ip.drop e
      else if ellipsis.isSome then []
      else ip

/-- The scan of `ParseIP` for the first dot or colon. -/
def parseIPScan (s : List Char) : List Char → IP
  | [] => []
  | c :: cs =>
    if c == '.' then parseIPv4 s
    else if c == ':' then parseIPv6 s
    else parseIPScan s cs

/-- Function `net.ParseIP(s)`: the address written in `s`, or nil (the empty list) when
`s` is not a valid textual IPv4 or IPv6 address. -/
def ParseIP (s : String) : IP := parseIPScan s.data s.data

/-- The decimal digits of a number below 1000, as `uitoa` writes them. -/
def uitoa (n : Nat) : String :=
  let d (k : Nat) : Char := Char.ofNat (48 + k % 10)
  if n < 10 then String.mk [d n]
  else if n < 100 then String.mk [d (n / 10), d n]
  else String.mk [d (n / 100), d (n / 10), d n]

/-- Method `IP.To4`: the four bytes of an IPv4 address, nil for anything else. -/
def IP.To4 (ip : IP) : IP :=
  if ip.length == 4 then ip
  else if ip.length == 16 && (ip.take 10).all (· == 0) && ip.getD 10 0 == 255
      && ip.getD 11 0 == 255 then ip.drop 12
  else []

/-- Function `appendHex`: lower-case hexadecimal without leading zeros. -/
def appendHex (i : Nat) : List Char :=
  if i == 0 then ['0']
  else
    ([i / 4096 % 16, i / 256 % 16, i / 16 % 16, i % 16].dropWhile (· == 0)).map hexDigit

/-- The 16-bit groups of a 16-byte address. -/
def groups : List Nat → List Nat
  | a :: b :: rest => (a * 256 + b) :: groups rest
  | _ => []

/-- The length of the run of zero groups at the head of the list. -/
def zeroRun : List Nat → Nat
  | 0 :: rest => zeroRun rest + 1
  | _ => 0

/-- The search for the longest run of zero groups in `IP.String`: `i` is the index of the
head of `gs`, `skip` the number of groups still inside a run already taken, `best` the
start and length of the best run so far. -/
def longestRun : List Nat → Nat → Nat → Nat × Nat → Nat × Nat
  | [], _, _, best => best
  | g :: gs, i, skip, best =>
    if skip > 0 then longestRun gs (i + 1) (skip - 1) best
    else
      let run := zeroRun (g :: gs)
      if run > 0 && run > best.2 then longestRun gs (i + 1) run (i, run)
      else longestRun gs (i + 1) 0 best

/-- Texts joined with colons. -/
def joinColon : List (List Char) → List Char
  | [] => []
  | [x] => x
  | x :: y :: ys => x ++ [':'] ++ joinColon (y :: ys)

/-- Method `IP.String`: dotted decimal for an IPv4 address, otherwise the colon form with
the longest run of at least two zero groups written `::`. -/
def IP.String (ip : IP) : String :=
  if ip.length == 0 then "<nil>"
  else
    match IP.To4 ip with
    | [a, b, c, d] => uitoa a ++ "." ++ uitoa b ++ "." ++ uitoa c ++ "." ++ uitoa d
    | _ =>
      if ip.length != 16 then "?"
      else
        let gs := groups ip
        let run := longestRun gs 0 0 (0, 0)
        if run.2 ≤ 1 then String.mk (joinColon (gs.map appendHex))
        else
          String.mk (joinColon ((gs.take run.1).map appendHex) ++ [':', ':']
            ++ joinColon ((gs.drop (run.1 + run.2)).map appendHex))

/-- The number of leading one bits of a byte, and whether only zero bits follow them. -/
def leadingOnes (v : Nat) : Nat × Bool :=
  if v == 255 then (8, true) else if v == 254 then (7, true) else if v == 252 then (6, true)
  else if v == 248 then (5, true) else if v == 240 then (4, true)
  else if v == 224 then (3, true) else if v == 192 then (2, true)
  else if v == 128 then (1, true) else if v == 0 then (0, true)
  else (0, false)

/-- Function `simpleMaskLength`: the number of leading ones of a mask made of ones
followed by zeros, `none` (Go: -1) for any other mask. -/
def simpleMaskLength : List Nat → Option Nat
  | [] => some 0
  | v :: rest =>
    if v == 255 then (simpleMaskLength rest).map (· + 8)
    else
      match leadingOnes v with
      | (n, true) => if rest.all (· == 0) then some n else none
      | _ => none

/-- Function `hexString`: two lower-case hexadecimal digits per byte. -/
def hexString (b : List Nat) : String :=
  String.mk (b.flatMap fun v => [hexDigit (v / 16), hexDigit (v % 16)])

/-- Function `networkNumberAndMask`: the address and mask in matching sizes, `none` when
the sizes do not fit. -/
def networkNumberAndMask (n : IPNet) : Option (IP × List Nat) :=
  let ip : IP :=
    match IP.To4 n.IP with
    | [] => if n.IP.length != 16 then [] else n.IP
    | ip4 => ip4
  if ip.isEmpty then none
  else if n.Mask.length == 4 then
    if ip.length != 4 then none else some (ip, n.Mask)
  else if n.Mask.length == 16 then
    if ip.length == 4 then some (ip, n.Mask.drop 12) else some (ip, n.Mask)
  else none

/-- Method `IPNet.String`: the CIDR form `address/length`, with the mask in hexadecimal
when it is not a run of ones. -/
def IPNet.String (n : IPNet) : String :=
  match networkNumberAndMask n with
  | none => "<nil>"
  | some (nn, m) =>
    match simpleMaskLength m with
    | none => IP.String nn ++ "/" ++ hexString m
    | some l => IP.String nn ++ "/" ++ uitoa l

end Go

/-! # Package `isolhttps` -/

namespace Isolhttps

open Go

/-- The constant `networkReceiver`. -/
def networkReceiver : String := "NetworkDriver"

/-- Modelled from the spec: the constant `ipamapi.PluginEndpointType` of libnetwork, which
`ipamReceiver` is set to and whose declaration is outside the sources; the wire table of
the spec gives the IPAM receiver name as `IpamDriver`. -/
def ipamReceiver : String := "IpamDriver"

/-- The request and response structs of `github.com/docker/libnetwork/drivers/remote/api`
that the network-driver handlers name. Their declarations are outside the sources, so
they are parameters of the model. -/
structure Api where
  GetCapabilityResponse : Type
  CreateNetworkRequest : Type
  DeleteNetworkRequest : Type
  CreateEndpointRequest : Type
  CreateEndpointResponse : Type
  DeleteEndpointRequest : Type
  EndpointInfoRequest : Type
  EndpointInfoResponse : Type
  JoinRequest : Type
  JoinResponse : Type
  LeaveRequest : Type
  DiscoveryNotification : Type

/-- Modelled from the spec: the struct `iapi.GetAddressSpacesResponse` of libnetwork, with
the two fields the handler sets and the wire table lists. -/
structure GetAddressSpacesResponse where
  LocalDefaultAddressSpace : String
  GlobalDefaultAddressSpace : String
  deriving DecidableEq, Repr

/-- Modelled from the spec: the struct `iapi.RequestPoolRequest` of libnetwork, with the
five fields the handler reads (the pool request of the wire table). -/
structure RequestPoolRequest where
  AddressSpace : String
  Pool : String
  SubPool : String
  Options : StrMap
  V6 : Bool
  deriving DecidableEq, Repr

/-- Modelled from the spec: the struct `iapi.RequestPoolResponse` of libnetwork, with the
three fields `PoolID`, `Pool`, `Data` of the wire table. -/
structure RequestPoolResponse where
  PoolID : String
  Pool : String
  Data : StrMap
  deriving DecidableEq, Repr

/-- Modelled from the spec: the struct `iapi.ReleasePoolRequest` of libnetwork. -/
structure ReleasePoolRequest where
  PoolID : String
  deriving DecidableEq, Repr

/-- Modelled from the spec: the struct `iapi.RequestAddressRequest` of libnetwork. -/
structure RequestAddressRequest where
  PoolID : String
  Address : String
  Options : StrMap
  deriving DecidableEq, Repr

/-- Modelled from the spec: the struct `iapi.RequestAddressResponse` of libnetwork. -/
structure RequestAddressResponse where
  Address : String
  Data : StrMap
  deriving DecidableEq, Repr

/-- Modelled from the spec: the struct `iapi.ReleaseAddressRequest` of libnetwork. -/
structure ReleaseAddressRequest where
  PoolID : String
  Address : String
  deriving DecidableEq, Repr

/-- Package `encoding/json` at the request and response types: `decodeT body` is the
outcome of `json.NewDecoder(r.Body).Decode(&v)` for `v` of type `T` (the decoded value, or
the message of the decoding error), `encodeT v` the outcome of marshalling `v` (the text,
or the message of the error). -/
structure Codec (api : Api) where
  decodeCreateNetworkRequest : String → Except String api.CreateNetworkRequest
  decodeDeleteNetworkRequest : String → Except String api.DeleteNetworkRequest
  decodeCreateEndpointRequest : String → Except String api.CreateEndpointRequest
  decodeDeleteEndpointRequest : String → Except String api.DeleteEndpointRequest
  decodeEndpointInfoRequest : String → Except String api.EndpointInfoRequest
  decodeJoinRequest : String → Except String api.JoinRequest
  decodeLeaveRequest : String → Except String api.LeaveRequest
  decodeDiscoveryNotification : String → Except String api.DiscoveryNotification
  decodeRequestPoolRequest : String → Except String RequestPoolRequest
  decodeReleasePoolRequest : String → Except String ReleasePoolRequest
  decodeRequestAddressRequest : String → Except String RequestAddressRequest
  decodeReleaseAddressRequest : String → Except String ReleaseAddressRequest
  encodeGetCapabilityResponse : api.GetCapabilityResponse → Except String String
  encodeCreateEndpointResponse : api.CreateEndpointResponse → Except String String
  encodeEndpointInfoResponse : api.EndpointInfoResponse → Except String String
  encodeJoinResponse : api.JoinResponse → Except String String

/-- The interface `Driver`: each method takes the state of the implementation and gives
the Go results and the state after the call. Pointer results are `none` when nil. -/
structure Driver (api : Api) (σ : Type) where
  GetCapabilities : σ → (Option api.GetCapabilityResponse × GoError) × σ
  CreateNetwork : api.CreateNetworkRequest → σ → GoError × σ
  DeleteNetwork : api.DeleteNetworkRequest → σ → GoError × σ
  CreateEndpoint : api.CreateEndpointRequest → σ → (Option api.CreateEndpointResponse × GoError) × σ
  DeleteEndpoint : api.DeleteEndpointRequest → σ → GoError × σ
  EndpointInfo : api.EndpointInfoRequest → σ → (Option api.EndpointInfoResponse × GoError) × σ
  JoinEndpoint : api.JoinRequest → σ → (Option api.JoinResponse × GoError) × σ
  LeaveEndpoint : api.LeaveRequest → σ → GoError × σ
  DiscoverNew : api.DiscoveryNotification → σ → GoError × σ
  DiscoverDelete : api.DiscoveryNotification → σ → GoError × σ

/-- The methods of the interface `ipamapi.Ipam` that the handlers call, with the argument
and result lists of the call sites. -/
structure Ipam (τ : Type) where
  GetDefaultAddressSpaces : τ → (String × String × GoError) × τ
  RequestPool : String → String → String → StrMap → Bool → τ →
    (String × Option IPNet × StrMap × GoError) × τ
  ReleasePool : String → τ → GoError × τ
  RequestAddress : String → IP → StrMap → τ → (Option IPNet × StrMap × GoError) × τ
  ReleaseAddress : String → IP → τ → GoError × τ

/-- One invocation of a capability method, with its arguments. -/
inductive Call (api : Api) where
  | GetCapabilities
  | CreateNetwork (create : api.CreateNetworkRequest)
  | DeleteNetwork (delete : api.DeleteNetworkRequest)
  | CreateEndpoint (create : api.CreateEndpointRequest)
  | DeleteEndpoint (delete : api.DeleteEndpointRequest)
  | EndpointInfo (req : api.EndpointInfoRequest)
  | JoinEndpoint (j : api.JoinRequest)
  | LeaveEndpoint (leave : api.LeaveRequest)
  | DiscoverNew (discover : api.DiscoveryNotification)
  | DiscoverDelete (delete : api.DiscoveryNotification)
  | GetDefaultAddressSpaces
  | RequestPool (addressSpace pool subPool : String) (options : StrMap) (v6 : Bool)
  | ReleasePool (poolID : String)
  | RequestAddress (poolID : String) (address : IP) (options : StrMap)
  | ReleaseAddress (poolID : String) (address : IP)

/-- The struct `isolhttps`: the two capability instances, each possibly nil. -/
structure isolhttps (api : Api) (σ τ : Type) where
  d : Option (Driver api σ)
  i : Option (Ipam τ)

/-- The part of an `http.Request` the router and the handlers look at. -/
structure Request where
  Method : String
  Path : String
  Body : String
  deriving DecidableEq, Repr

/-- The states of the two capability implementations. -/
structure State (σ τ : Type) where
  d : σ
  i : τ

/-- How a handler ends: it returns, leaving the response writer, the implementation states
and the capability calls it made in order; or it panics, with nothing written, after the
calls it made. -/
inductive Outcome (api : Api) (σ τ : Type) where
  | returned (w : ResponseWriter) (s : State σ τ) (calls : List (Call api))
  | panicked (msg : String) (s : State σ τ) (calls : List (Call api))

/-- The response writer a handler leaves, when it returns. -/
def Outcome.response {api : Api} {σ τ : Type} : Outcome api σ τ → Option ResponseWriter
  | .returned w _ _ => some w
  | .panicked _ _ _ => none

/-- The capability calls a handler made. -/
def Outcome.calls {api : Api} {σ τ : Type} : Outcome api σ τ → List (Call api)
  | .returned _ _ calls => calls
  | .panicked _ _ calls => calls

/-- The implementation states a handler leaves. -/
def Outcome.state {api : Api} {σ τ : Type} : Outcome api σ τ → State σ τ
  | .returned _ s _ => s
  | .panicked _ s _ => s

/-- The run-time panic of a method call through a nil interface or pointer. -/
def nilDereference : String :=
  "runtime error: invalid memory address or nil pointer dereference"

/-! ## Response helpers -/

/-- Function `sendError`. -/
def sendError (w : ResponseWriter) (msg : String) (code : Nat) : ResponseWriter :=
  Error w msg code

/-- Function `notFound`. -/
def notFound (w : ResponseWriter) : ResponseWriter :=
  NotFound w

/-- Function `errorResponse(w, fmtString)` with no further items: status 500, then the
map with the one key `Err` whose value is `fmt.Sprintf(fmtString)`. -/
def errorResponse (w : ResponseWriter) (fmtString : String) : ResponseWriter :=
  let w := w.WriteHeader StatusInternalServerError
  (Encode w (.ok (encodeStrMap (some [("Err", Sprintf fmtString)])))).1

/-- Function `objectResponse`; `obj` is the outcome of marshalling the object. -/
def objectResponse (w : ResponseWriter) (obj : Except String String) : ResponseWriter :=
  match Encode w obj with
  | (_, some _) => sendError w "Could not JSON encode response" StatusInternalServerError
  | (w1, none) => w1

/-- Function `emptyResponse`: the empty map. -/
def emptyResponse (w : ResponseWriter) : ResponseWriter :=
  (Encode w (.ok (encodeStrMap (some [])))).1

/-- Function `objectOrErrorResponse`. -/
def objectOrErrorResponse (w : ResponseWriter) (obj : Except String String) (err : GoError) :
    ResponseWriter :=
  match err with
  | some e => errorResponse w e
  | none => objectResponse w obj

/-- Function `emptyOrErrorResponse`. -/
def emptyOrErrorResponse (w : ResponseWriter) (err : GoError) : ResponseWriter :=
  match err with
  | some e => errorResponse w e
  | none => emptyResponse w

/-- Function `decode`: on a decoding error it sends status 400 with the message; the
caller gets the outcome of the decoding and the writer. -/
def decode {α : Type} (w : ResponseWriter) (decoded : Except String α) :
    ResponseWriter × Except String α :=
  match decoded with
  | .error err => (sendError w ("Unable to decode JSON payload: " ++ err) StatusBadRequest, .error err)
  | .ok v => (w, .ok v)

/-! ## Protocol handlers -/

section handlers

variable {api : Api} {σ τ : Type}

/-- The slice `resp.Implements` that `handshake` builds by appending. -/
def handshakeImplements (h : isolhttps api σ τ) : List String :=
  let resp : List String := []
  let resp := if h.d.isSome then resp ++ ["NetworkDriver"] else resp
  let resp := if h.i.isSome then resp ++ ["IpamDriver"] else resp
  resp

/-- The JSON text of a `handshakeResp`. -/
def encodeHandshakeResp (implements : List String) : String :=
  encodeStruct [("Implements", encodeStrSlice implements)]

/-- Method `handshake`. -/
def isolhttps.handshake (_c : Codec api) (h : isolhttps api σ τ) (w : ResponseWriter)
    (_r : Request) (s : State σ τ) : Outcome api σ τ :=
  let resp := handshakeImplements h
  match Encode w (.ok (encodeHandshakeResp resp)) with
  | (_, some _) => .returned (sendError w "encode error" StatusInternalServerError) s []
  | (w1, none) => .returned w1 s []

/-- Method `getCapabilities`. -/
def isolhttps.getCapabilities (c : Codec api) (h : isolhttps api σ τ) (w : ResponseWriter)
    (_r : Request) (s : State σ τ) : Outcome api σ τ :=
  match h.d with
  | none => .panicked nilDereference s []
  | some d =>
    let ((caps, err), ds) := d.GetCapabilities s.d
    .returned (objectOrErrorResponse w (encodePtr c.encodeGetCapabilityResponse caps) err)
      { s with d := ds } [.GetCapabilities]

/-- Method `createNetwork`. -/
def isolhttps.createNetwork (c : Codec api) (h : isolhttps api σ τ) (w : ResponseWriter)
    (r : Request) (s : State σ τ) : Outcome api σ τ :=
  match c.decodeCreateNetworkRequest r.Body with
  | .error err =>
    .returned (sendError w ("Unable to decode JSON payload: " ++ err) StatusBadRequest) s []
  | .ok create =>
    match h.d with
    | none => .panicked nilDereference s []
    | some d =>
      let (err, ds) := d.CreateNetwork create s.d
      .returned (emptyOrErrorResponse w err) { s with d := ds } [.CreateNetwork create]

/-- Method `deleteNetwork`. -/
def isolhttps.deleteNetwork (c : Codec api) (h : isolhttps api σ τ) (w : ResponseWriter)
    (r : Request) (s : State σ τ) : Outcome api σ τ :=
  match c.decodeDeleteNetworkRequest r.Body with
  | .error err =>
    .returned (sendError w ("Unable to decode JSON payload: " ++ err) StatusBadRequest) s []
  | .ok delete =>
    match h.d with
    | none => .panicked nilDereference s []
    | some d =>
      let (err, ds) := d.DeleteNetwork delete s.d
      .returned (emptyOrErrorResponse w err) { s with d := ds } [.DeleteNetwork delete]

/-- Method `createEndpoint`. -/
def isolhttps.createEndpoint (c : Codec api) (h : isolhttps api σ τ) (w : ResponseWriter)
    (r : Request) (s : State σ τ) : Outcome api σ τ :=
  match c.decodeCreateEndpointRequest r.Body with
  | .error err =>
    .returned (sendError w ("unable to decode JSON payload: " ++ err) StatusBadRequest) s []
  | .ok create =>
    match h.d with
    | none => .panicked nilDereference s []
    | some d =>
      let ((res, err), ds) := d.CreateEndpoint create s.d
      .returned (objectOrErrorResponse w (encodePtr c.encodeCreateEndpointResponse res) err)
        { s with d := ds } [.CreateEndpoint create]

/-- Method `deleteEndpoint`. -/
def isolhttps.deleteEndpoint (c : Codec api) (h : isolhttps api σ τ) (w : ResponseWriter)
    (r : Request) (s : State σ τ) : Outcome api σ τ :=
  match c.decodeDeleteEndpointRequest r.Body with
  | .error _ =>
    .returned (sendError w "Could not decode JSON encode payload" StatusBadRequest) s []
  | .ok delete =>
    match h.d with
    | none => .panicked nilDereference s []
    | some d =>
      let (err, ds) := d.DeleteEndpoint delete s.d
      .returned (emptyOrErrorResponse w err) { s with d := ds } [.DeleteEndpoint delete]

/-- Method `infoEndpoint`. -/
def isolhttps.infoEndpoint (c : Codec api) (h : isolhttps api σ τ) (w : ResponseWriter)
    (r : Request) (s : State σ τ) : Outcome api σ τ :=
  match c.decodeEndpointInfoRequest r.Body with
  | .error _ =>
    .returned (sendError w "Could not decode JSON encode payload" StatusBadRequest) s []
  | .ok req =>
    match h.d with
    | none => .panicked nilDereference s []
    | some d =>
      let ((info, err), ds) := d.EndpointInfo req s.d
      .returned (objectOrErrorResponse w (encodePtr c.encodeEndpointInfoResponse info) err)
        { s with d := ds } [.EndpointInfo req]

/-- Method `joinEndpoint`. -/
def isolhttps.joinEndpoint (c : Codec api) (h : isolhttps api σ τ) (w : ResponseWriter)
    (r : Request) (s : State σ τ) : Outcome api σ τ :=
  match c.decodeJoinRequest r.Body with
  | .error _ =>
    .returned (sendError w "Could not decode JSON encode payload" StatusBadRequest) s []
  | .ok join =>
    match h.d with
    | none => .panicked nilDereference s []
    | some d =>
      let ((res, err), ds) := d.JoinEndpoint join s.d
      .returned (objectOrErrorResponse w (encodePtr c.encodeJoinResponse res) err)
        { s with d := ds } [.JoinEndpoint join]

/-- Method `leaveEndpoint`. -/
def isolhttps.leaveEndpoint (c : Codec api) (h : isolhttps api σ τ) (w : ResponseWriter)
    (r : Request) (s : State σ τ) : Outcome api σ τ :=
  match c.decodeLeaveRequest r.Body with
  | .error _ =>
    .returned (sendError w "Could not decode JSON encode payload" StatusBadRequest) s []
  | .ok l =>
    match h.d with
    | none => .panicked nilDereference s []
    | some d =>
      let (err, ds) := d.LeaveEndpoint l s.d
      .returned (emptyOrErrorResponse w err) { s with d := ds } [.LeaveEndpoint l]

/-- Method `discoverNew`. -/
def isolhttps.discoverNew (c : Codec api) (h : isolhttps api σ τ) (w : ResponseWriter)
    (r : Request) (s : State σ τ) : Outcome api σ τ :=
  match c.decodeDiscoveryNotification r.Body with
  | .error _ =>
    .returned (sendError w "Could not decode JSON encode payload" StatusBadRequest) s []
  | .ok disco =>
    match h.d with
    | none => .panicked nilDereference s []
    | some d =>
      let (err, ds) := d.DiscoverNew disco s.d
      .returned (emptyOrErrorResponse w err) { s with d := ds } [.DiscoverNew disco]

/-- Method `discoverDelete`. -/
def isolhttps.discoverDelete (c : Codec api) (h : isolhttps api σ τ) (w : ResponseWriter)
    (r : Request) (s : State σ τ) : Outcome api σ τ :=
  match c.decodeDiscoveryNotification r.Body with
  | .error _ =>
    .returned (sendError w "Could not decode JSON encode payload" StatusBadRequest) s []
  | .ok disco =>
    match h.d with
    | none => .panicked nilDereference s []
    | some d =>
      let (err, ds) := d.DiscoverDelete disco s.d
      .returned (emptyOrErrorResponse w err) { s with d := ds } [.DiscoverDelete disco]

/-- The JSON text of a `GetAddressSpacesResponse`. -/
def encodeGetAddressSpacesResponse (v : GetAddressSpacesResponse) : String :=
  encodeStruct [("LocalDefaultAddressSpace", encodeString v.LocalDefaultAddressSpace),
    ("GlobalDefaultAddressSpace", encodeString v.GlobalDefaultAddressSpace)]

/-- The JSON text of a `RequestPoolResponse`. -/
def encodeRequestPoolResponse (v : RequestPoolResponse) : String :=
  encodeStruct [("PoolID", encodeString v.PoolID), ("Pool", encodeString v.Pool),
    ("Data", encodeStrMap v.Data)]

/-- The JSON text of a `RequestAddressResponse`. -/
def encodeRequestAddressResponse (v : RequestAddressResponse) : String :=
  encodeStruct [("Address", encodeString v.Address), ("Data", encodeStrMap v.Data)]

/-- Method `getDefaultAddressSpaces`. -/
def isolhttps.getDefaultAddressSpaces (_c : Codec api) (h : isolhttps api σ τ)
    (w : ResponseWriter) (_r : Request) (s : State σ τ) : Outcome api σ τ :=
  match h.i with
  | none => .panicked nilDereference s []
  | some i =>
    let ((localSpace, globalSpace, err), is) := i.GetDefaultAddressSpaces s.i
    let response : GetAddressSpacesResponse :=
      { LocalDefaultAddressSpace := localSpace, GlobalDefaultAddressSpace := globalSpace }
    .returned (objectOrErrorResponse w (.ok (encodeGetAddressSpacesResponse response)) err)
      { s with i := is } [.GetDefaultAddressSpaces]

/-- Method `requestPool`. -/
def isolhttps.requestPool (c : Codec api) (h : isolhttps api σ τ) (w : ResponseWriter)
    (r : Request) (s : State σ τ) : Outcome api σ τ :=
  match decode w (c.decodeRequestPoolRequest r.Body) with
  | (w1, .error _) => .returned w1 s []
  | (w1, .ok rq) =>
    match h.i with
    | none => .panicked nilDereference s []
    | some i =>
      let ((poolID, pool, data, err), is) :=
        i.RequestPool rq.AddressSpace rq.Pool rq.SubPool rq.Options rq.V6 s.i
      let calls : List (Call api) :=
        [.RequestPool rq.AddressSpace rq.Pool rq.SubPool rq.Options rq.V6]
      match err with
      | some e => .returned (errorResponse w1 e) { s with i := is } calls
      | none =>
        match pool with
        | none => .panicked nilDereference { s with i := is } calls
        | some pool =>
          let response : RequestPoolResponse :=
            { PoolID := poolID, Pool := pool.String, Data := data }
          .returned (objectResponse w1 (.ok (encodeRequestPoolResponse response)))
            { s with i := is } calls

/-- Method `releasePool`. -/
def isolhttps.releasePool (c : Codec api) (h : isolhttps api σ τ) (w : ResponseWriter)
    (r : Request) (s : State σ τ) : Outcome api σ τ :=
  match decode w (c.decodeReleasePoolRequest r.Body) with
  | (w1, .error _) => .returned w1 s []
  | (w1, .ok rq) =>
    match h.i with
    | none => .panicked nilDereference s []
    | some i =>
      let (err, is) := i.ReleasePool rq.PoolID s.i
      .returned (emptyOrErrorResponse w1 err) { s with i := is } [.ReleasePool rq.PoolID]

/-- Method `requestAddress`. -/
def isolhttps.requestAddress (c : Codec api) (h : isolhttps api σ τ) (w : ResponseWriter)
    (r : Request) (s : State σ τ) : Outcome api σ τ :=
  match decode w (c.decodeRequestAddressRequest r.Body) with
  | (w1, .error _) => .returned w1 s []
  | (w1, .ok rq) =>
    match h.i with
    | none => .panicked nilDereference s []
    | some i =>
      let ((address, data, err), is) :=
        i.RequestAddress rq.PoolID (ParseIP rq.Address) rq.Options s.i
      let calls : List (Call api) :=
        [.RequestAddress rq.PoolID (ParseIP rq.Address) rq.Options]
      match err with
      | some e => .returned (errorResponse w1 e) { s with i := is } calls
      | none =>
        match address with
        | none => .panicked nilDereference { s with i := is } calls
        | some address =>
          let response : RequestAddressResponse :=
            { Address := address.String, Data := data }
          .returned (objectResponse w1 (.ok (encodeRequestAddressResponse response)))
            { s with i := is } calls

/-- Method `releaseAddress`. -/
def isolhttps.releaseAddress (c : Codec api) (h : isolhttps api σ τ) (w : ResponseWriter)
    (r : Request) (s : State σ τ) : Outcome api σ τ :=
  match decode w (c.decodeReleaseAddressRequest r.Body) with
  | (w1, .error _) => .returned w1 s []
  | (w1, .ok rq) =>
    match h.i with
    | none => .panicked nilDereference s []
    | some i =>
      let (err, is) := i.ReleaseAddress rq.PoolID (ParseIP rq.Address) s.i
      .returned (emptyOrErrorResponse w1 err) { s with i := is }
        [.ReleaseAddress rq.PoolID (ParseIP rq.Address)]

end handlers

/-! ## The route table -/

/-- The handler functions that `main` can bind: `notFound` and the methods of
`isolhttps`. -/
inductive HandlerFunc where
  | notFound
  | handshake
  | getCapabilities
  | createNetwork
  | deleteNetwork
  | createEndpoint
  | deleteEndpoint
  | infoEndpoint
  | joinEndpoint
  | leaveEndpoint
  | discoverNew
  | discoverDelete
  | getDefaultAddressSpaces
  | requestPool
  | releasePool
  | requestAddress
  | releaseAddress
  deriving DecidableEq, Repr

/-- A route of the `mux` router: the method and the path it matches, and its handler. -/
structure Route where
  method : String
  path : String
  handler : HandlerFunc
  deriving DecidableEq, Repr

/-- The `mux.Router`: its routes in registration order and its not-found handler. -/
structure Router where
  NotFoundHandler : HandlerFunc
  routes : List Route
  deriving DecidableEq, Repr

/-- The chain `router.Methods(method).Path(path).HandlerFunc(h)`: one more route. -/
def Router.handle (router : Router) (method path : String) (h : HandlerFunc) : Router :=
  { router with routes := router.routes ++ [⟨method, path, h⟩] }

/-- The closure `handleMethod` of `main`; the path is
`fmt.Sprintf("/%s.%s", receiver, method)`. -/
def handleMethod (router : Router) (receiver method : String) (h : HandlerFunc) : Router :=
  router.handle "POST" ("/" ++ receiver ++ "." ++ method) h

/-- Function `main`, up to the call of `http.Serve`: the router that is served. The two
flags say whether `driver` and `ipamDriver` are non-nil. -/
def main (driver ipamDriver : Bool) : Router :=
  let router : Router := { NotFoundHandler := .notFound, routes := [] }
  let router := router.handle "POST" "/Plugin.Activate" .handshake
  let router := handleMethod router networkReceiver "GetCapabilities" .getCapabilities
  let router :=
    if driver then
      let router := handleMethod router networkReceiver "CreateNetwork" .createNetwork
      let router := handleMethod router networkReceiver "DeleteNetwork" .deleteNetwork
      let router := handleMethod router networkReceiver "CreateEndpoint" .createEndpoint
      let router := handleMethod router networkReceiver "DeleteEndpoint" .deleteEndpoint
      let router := handleMethod router networkReceiver "EndpointOperInfo" .infoEndpoint
      let router := handleMethod router networkReceiver "Join" .joinEndpoint
      handleMethod router networkReceiver "Leave" .leaveEndpoint
    else router
  let router :=
    if ipamDriver then
      let router := handleMethod router ipamReceiver "GetDefaultAddressSpaces"
        .getDefaultAddressSpaces
      let router := handleMethod router ipamReceiver "RequestPool" .requestPool
      let router := handleMethod router ipamReceiver "ReleasePool" .releasePool
      let router := handleMethod router ipamReceiver "RequestAddress" .requestAddress
      handleMethod router ipamReceiver "ReleaseAddress" .releaseAddress
    else router
  router

/-- Route matching of the router (`Router.Match`, then the fallback of `Router.ServeHTTP`):
the handler of the first route, in registration order, whose method matcher and path
matcher both accept the request, the `NotFoundHandler` when no route matches. A route
built by `Methods(m).Path(p)` with a path free of variables accepts exactly the method `m`
and the path `p`; a path that matches under another method is no match. The path is the
one the matcher sees, after the router has redirected paths that are not in canonical
form. -/
def Router.resolve (router : Router) (method path : String) : HandlerFunc :=
  match router.routes.find? fun rt => rt.method == method && rt.path == path with
  | some rt => rt.handler
  | none => router.NotFoundHandler

/-- The function behind a handler name. -/
def HandlerFunc.ServeHTTP {api : Api} {σ τ : Type} (f : HandlerFunc) (c : Codec api)
    (h : isolhttps api σ τ) (w : ResponseWriter) (r : Request) (s : State σ τ) :
    Outcome api σ τ :=
  match f with
  | .notFound => .returned (Isolhttps.notFound w) s []
  | .handshake => h.handshake c w r s
  | .getCapabilities => h.getCapabilities c w r s
  | .createNetwork => h.createNetwork c w r s
  | .deleteNetwork => h.deleteNetwork c w r s
  | .createEndpoint => h.createEndpoint c w r s
  | .deleteEndpoint => h.deleteEndpoint c w r s
  | .infoEndpoint => h.infoEndpoint c w r s
  | .joinEndpoint => h.joinEndpoint c w r s
  | .leaveEndpoint => h.leaveEndpoint c w r s
  | .discoverNew => h.discoverNew c w r s
  | .discoverDelete => h.discoverDelete c w r s
  | .getDefaultAddressSpaces => h.getDefaultAddressSpaces c w r s
  | .requestPool => h.requestPool c w r s
  | .releasePool => h.releasePool c w r s
  | .requestAddress => h.requestAddress c w r s
  | .releaseAddress => h.releaseAddress c w r s

/-- One request served by the router that `main` builds for the two capability instances
of `h`: the matching handler runs on a fresh response writer. -/
def serve {api : Api} {σ τ : Type} (c : Codec api) (h : isolhttps api σ τ) (r : Request)
    (s : State σ τ) : Outcome api σ τ :=
  ((main h.d.isSome h.i.isSome).resolve r.Method r.Path).ServeHTTP c h ResponseWriter.fresh r s

end Isolhttps

/-! # Package `mojaipam` -/

namespace Mojaipam

open Go

/-- The constant `capabilitiesPath`. -/
def capabilitiesPath : String := "/IpamDriver.GetCapabilities"
/-- The constant `addressSpacesPath`. -/
def addressSpacesPath : String := "/IpamDriver.GetDefaultAddressSpaces"
/-- The constant `requestPoolPath`. -/
def requestPoolPath : String := "/IpamDriver.RequestPool"
/-- The constant `releasePoolPath`. -/
def releasePoolPath : String := "/IpamDriver.ReleasePool"
/-- The constant `requestAddressPath`. -/
def requestAddressPath : String := "/IpamDriver.RequestAddress"
/-- The constant `releaseAddressPath`. -/
def releaseAddressPath : String := "/IpamDriver.ReleaseAddress"

/-- The struct `CapabilitiesResponse`. -/
structure CapabilitiesResponse where
  RequiresMACAddress : Bool
  deriving DecidableEq, Repr

/-- The struct `AddressSpacesResponse`. -/
structure AddressSpacesResponse where
  LocalDefaultAddressSpace : String
  GlobalDefaultAddressSpace : String
  deriving DecidableEq, Repr

/-- The struct `RequestPoolRequest`. -/
structure RequestPoolRequest where
  AddressSpace : String
  Pool : String
  SubPool : String
  Options : StrMap
  V6 : Bool
  deriving DecidableEq, Repr

/-- The struct `RequestPoolResponse`. -/
structure RequestPoolResponse where
  PoolID : String
  Pool : String
  Data : StrMap
  deriving DecidableEq, Repr

/-- The struct `ReleasePoolRequest`. -/
structure ReleasePoolRequest where
  PoolID : String
  deriving DecidableEq, Repr

/-- The struct `RequestAddressRequest`. -/
structure RequestAddressRequest where
  PoolID : String
  Address : String
  Options : StrMap
  deriving DecidableEq, Repr

/-- The struct `RequestAddressResponse`. -/
structure RequestAddressResponse where
  Address : String
  Data : StrMap
  deriving DecidableEq, Repr

/-- The struct `ReleaseAddressRequest`. -/
structure ReleaseAddressRequest where
  PoolID : String
  Address : String
  deriving DecidableEq, Repr

/-- The struct `ErrorResponse`. -/
structure ErrorResponse where
  Err : String
  deriving DecidableEq, Repr

/-- Function `NewErrorResponse`. -/
def NewErrorResponse (msg : String) : ErrorResponse := { Err := msg }

/-- The interface `Ipam`; a pointer result is `none` when nil. -/
structure Ipam (τ : Type) where
  GetCapabilities : τ → (Option CapabilitiesResponse × GoError) × τ
  GetDefaultAddressSpaces : τ → (Option AddressSpacesResponse × GoError) × τ
  RequestPool : RequestPoolRequest → τ → (Option RequestPoolResponse × GoError) × τ
  ReleasePool : ReleasePoolRequest → τ → GoError × τ
  RequestAddress : RequestAddressRequest → τ → (Option RequestAddressResponse × GoError) × τ
  ReleaseAddress : ReleaseAddressRequest → τ → GoError × τ

/-- The decoder of `encoding/json` at the four request structs: the decoded value, or the
message of the decoding error. -/
structure Codec where
  decodeRequestPoolRequest : String → Except String RequestPoolRequest
  decodeReleasePoolRequest : String → Except String ReleasePoolRequest
  decodeRequestAddressRequest : String → Except String RequestAddressRequest
  decodeReleaseAddressRequest : String → Except String ReleaseAddressRequest

/-- The JSON text of a Go `bool`. -/
def encodeBool (b : Bool) : String := if b then "true" else "false"

/-- The JSON text of a `CapabilitiesResponse`. -/
def encodeCapabilitiesResponse (v : CapabilitiesResponse) : Except String String :=
  .ok (encodeStruct [("RequiresMACAddress", encodeBool v.RequiresMACAddress)])

/-- The JSON text of an `AddressSpacesResponse`. -/
def encodeAddressSpacesResponse (v : AddressSpacesResponse) : Except String String :=
  .ok (encodeStruct [("LocalDefaultAddressSpace", encodeString v.LocalDefaultAddressSpace),
    ("GlobalDefaultAddressSpace", encodeString v.GlobalDefaultAddressSpace)])

/-- The JSON text of a `RequestPoolResponse`. -/
def encodeRequestPoolResponse (v : RequestPoolResponse) : Except String String :=
  .ok (encodeStruct [("PoolID", encodeString v.PoolID), ("Pool", encodeString v.Pool),
    ("Data", encodeStrMap v.Data)])

/-- The JSON text of a `RequestAddressResponse`. -/
def encodeRequestAddressResponse (v : RequestAddressResponse) : Except String String :=
  .ok (encodeStruct [("Address", encodeString v.Address), ("Data", encodeStrMap v.Data)])

/-- The JSON text of an `ErrorResponse`. -/
def encodeErrorResponse (v : ErrorResponse) : Except String String :=
  .ok (encodeStruct [("Err", encodeString v.Err)])

/-- Modelled from the spec: the function `sdk.DecodeRequest` of
`github.com/mojaisolator/sdk`, which is outside the sources. A body that fails to decode
is answered with a client-error status and the message of the error, and the error is
handed back to the caller. -/
def DecodeRequest {α : Type} (w : ResponseWriter) (decoded : Except String α) :
    ResponseWriter × Except String α :=
  match decoded with
  | .error err => (Error w err StatusBadRequest, .error err)
  | .ok v => (w, .ok v)

/-- Modelled from the spec: the function `sdk.EncodeResponse(w, res, err)` of
`github.com/mojaisolator/sdk`, which is outside the sources. It writes one envelope, the
JSON text of `res`, and marks the response as a server error when the message `err` is
not empty. -/
def EncodeResponse (w : ResponseWriter) (res : Except String String) (err : String) :
    ResponseWriter :=
  let w := if err != "" then w.WriteHeader StatusInternalServerError else w
  (Encode w res).1

/-- One invocation of a method of `Ipam`. -/
inductive Call where
  | GetCapabilities
  | GetDefaultAddressSpaces
  | RequestPool (req : RequestPoolRequest)
  | ReleasePool (req : ReleasePoolRequest)
  | RequestAddress (req : RequestAddressRequest)
  | ReleaseAddress (req : ReleaseAddressRequest)
  deriving DecidableEq, Repr

/-- The struct `Handler`: the driver implementation, possibly nil. -/
structure Handler (τ : Type) where
  mojaipam : Option (Ipam τ)

/-- How a handler ends: it returns, leaving the response writer, the state of the
implementation and the calls it made; or it panics. -/
inductive Outcome (τ : Type) where
  | returned (w : ResponseWriter) (s : τ) (calls : List Call)
  | panicked (msg : String) (s : τ) (calls : List Call)

/-- The response writer a handler leaves, when it returns. -/
def Outcome.response {τ : Type} : Outcome τ → Option ResponseWriter
  | .returned w _ _ => some w
  | .panicked _ _ _ => none

/-- The run-time panic of a method call through a nil interface. -/
def nilDereference : String :=
  "runtime error: invalid memory address or nil pointer dereference"

section handlers

variable {τ : Type}

/-- The handler that `initMux` installs at `capabilitiesPath`. -/
def Handler.capabilities (_c : Codec) (h : Handler τ) (w : ResponseWriter) (_body : String)
    (s : τ) : Outcome τ :=
  match h.mojaipam with
  | none => .panicked nilDereference s []
  | some m =>
    let ((res, err), s1) := m.GetCapabilities s
    match err with
    | some msg =>
      .returned (EncodeResponse w (encodeErrorResponse (NewErrorResponse msg)) msg) s1
        [.GetCapabilities]
    | none =>
      .returned (EncodeResponse w (encodePtr encodeCapabilitiesResponse res) "") s1
        [.GetCapabilities]

/-- The handler that `initMux` installs at `addressSpacesPath`. -/
def Handler.addressSpaces (_c : Codec) (h : Handler τ) (w : ResponseWriter) (_body : String)
    (s : τ) : Outcome τ :=
  match h.mojaipam with
  | none => .panicked nilDereference s []
  | some m =>
    let ((res, err), s1) := m.GetDefaultAddressSpaces s
    match err with
    | some msg =>
      .returned (EncodeResponse w (encodeErrorResponse (NewErrorResponse msg)) msg) s1
        [.GetDefaultAddressSpaces]
    | none =>
      .returned (EncodeResponse w (encodePtr encodeAddressSpacesResponse res) "") s1
        [.GetDefaultAddressSpaces]

/-- The handler that `initMux` installs at `requestPoolPath`. -/
def Handler.requestPool (c : Codec) (h : Handler τ) (w : ResponseWriter) (body : String)
    (s : τ) : Outcome τ :=
  match DecodeRequest w (c.decodeRequestPoolRequest body) with
  | (w1, .error _) => .returned w1 s []
  | (w1, .ok req) =>
    match h.mojaipam with
    | none => .panicked nilDereference s []
    | some m =>
      let ((res, err), s1) := m.RequestPool req s
      match err with
      | some msg =>
        .returned (EncodeResponse w1 (encodeErrorResponse (NewErrorResponse msg)) msg) s1
          [.RequestPool req]
      | none =>
        .returned (EncodeResponse w1 (encodePtr encodeRequestPoolResponse res) "") s1
          [.RequestPool req]

/-- The handler that `initMux` installs at `releasePoolPath`. -/
def Handler.releasePool (c : Codec) (h : Handler τ) (w : ResponseWriter) (body : String)
    (s : τ) : Outcome τ :=
  match DecodeRequest w (c.decodeReleasePoolRequest body) with
  | (w1, .error _) => .returned w1 s []
  | (w1, .ok req) =>
    match h.mojaipam with
    | none => .panicked nilDereference s []
    | some m =>
      let (err, s1) := m.ReleasePool req s
      match err with
      | some msg =>
        .returned (EncodeResponse w1 (encodeErrorResponse (NewErrorResponse msg)) msg) s1
          [.ReleasePool req]
      | none =>
        .returned (EncodeResponse w1 (.ok (encodeStrMap (some []))) "") s1 [.ReleasePool req]

/-- The handler that `initMux` installs at `requestAddressPath`. -/
def Handler.requestAddress (c : Codec) (h : Handler τ) (w : ResponseWriter) (body : String)
    (s : τ) : Outcome τ :=
  match DecodeRequest w (c.decodeRequestAddressRequest body) with
  | (w1, .error _) => .returned w1 s []
  | (w1, .ok req) =>
    match h.mojaipam with
    | none => .panicked nilDereference s []
    | some m =>
      let ((res, err), s1) := m.RequestAddress req s
      match err with
      | some msg =>
        .returned (EncodeResponse w1 (encodeErrorResponse (NewErrorResponse msg)) msg) s1
          [.RequestAddress req]
      | none =>
        .returned (EncodeResponse w1 (encodePtr encodeRequestAddressResponse res) "") s1
          [.RequestAddress req]

/-- The handler that `initMux` installs at `releaseAddressPath`. After the error envelope
there is no `return`: the empty map is encoded in both cases. -/
def Handler.releaseAddress (c : Codec) (h : Handler τ) (w : ResponseWriter) (body : String)
    (s : τ) : Outcome τ :=
  match DecodeRequest w (c.decodeReleaseAddressRequest body) with
  | (w1, .error _) => .returned w1 s []
  | (w1, .ok req) =>
    match h.mojaipam with
    | none => .panicked nilDereference s []
    | some m =>
      let (err, s1) := m.ReleaseAddress req s
      let w2 :=
        match err with
        | some msg => EncodeResponse w1 (encodeErrorResponse (NewErrorResponse msg)) msg
        | none => w1
      .returned (EncodeResponse w2 (.ok (encodeStrMap (some []))) "") s1 [.ReleaseAddress req]

/-- The six operations that `initMux` registers. -/
inductive Operation where
  | capabilities
  | addressSpaces
  | requestPool
  | releasePool
  | requestAddress
  | releaseAddress
  deriving DecidableEq, Repr

/-- The path under which `initMux` registers an operation. -/
def Operation.path : Operation → String
  | .capabilities => capabilitiesPath
  | .addressSpaces => addressSpacesPath
  | .requestPool => requestPoolPath
  | .releasePool => releasePoolPath
  | .requestAddress => requestAddressPath
  | .releaseAddress => releaseAddressPath

/-- Method `initMux`: the handler registered for each operation. -/
def Handler.initMux (c : Codec) (h : Handler τ) (op : Operation) :
    ResponseWriter → String → τ → Outcome τ :=
  match op with
  | .capabilities => h.capabilities c
  | .addressSpaces => h.addressSpaces c
  | .requestPool => h.requestPool c
  | .releasePool => h.releasePool c
  | .requestAddress => h.requestAddress c
  | .releaseAddress => h.releaseAddress c

end handlers

end Mojaipam

/-! # The wire table of the specification and the instances used in the examples -/

namespace Isolhttps

open Go

/-- The wire-protocol table of the specification (external interfaces): its 14 paths in
order, each with the handler of the operation it names. -/
def wireProtocol : List (String × HandlerFunc) :=
  [("/Plugin.Activate", .handshake),
   ("/NetworkDriver.GetCapabilities", .getCapabilities),
   ("/NetworkDriver.CreateNetwork", .createNetwork),
   ("/NetworkDriver.DeleteNetwork", .deleteNetwork),
   ("/NetworkDriver.CreateEndpoint", .createEndpoint),
   ("/NetworkDriver.DeleteEndpoint", .deleteEndpoint),
   ("/NetworkDriver.EndpointOperInfo", .infoEndpoint),
   ("/NetworkDriver.Join", .joinEndpoint),
   ("/NetworkDriver.Leave", .leaveEndpoint),
   ("/IpamDriver.GetDefaultAddressSpaces", .getDefaultAddressSpaces),
   ("/IpamDriver.RequestPool", .requestPool),
   ("/IpamDriver.ReleasePool", .releasePool),
   ("/IpamDriver.RequestAddress", .requestAddress),
   ("/IpamDriver.ReleaseAddress", .releaseAddress)]

/-- The error envelope of the specification for a message: the JSON object with the single
field `Err` whose value is the message, on a line of its own. -/
def errEnvelope (message : String) : String :=
  "\x7b" ++ encodeString "Err" ++ ":" ++ encodeString message ++ "\x7d\n"

/-- An instance of the api types for the examples: every struct is kept as a text. -/
def textApi : Api :=
  { GetCapabilityResponse := String, CreateNetworkRequest := String,
    DeleteNetworkRequest := String, CreateEndpointRequest := String,
    CreateEndpointResponse := String, DeleteEndpointRequest := String,
    EndpointInfoRequest := String, EndpointInfoResponse := String, JoinRequest := String,
    JoinResponse := String, LeaveRequest := String, DiscoveryNotification := String }

/-- The body of the `RequestPool` scenario of the specification. -/
def requestPoolBody : String :=
  "\x7b\"AddressSpace\":\"mojaLocal\",\"Pool\":\"\",\"SubPool\":\"\",\"Options\":\x7b\x7d,\"V6\":false\x7d"

/-- The request that `requestPoolBody` decodes to. -/
def requestPoolDecoded : RequestPoolRequest :=
  { AddressSpace := "mojaLocal", Pool := "", SubPool := "", Options := some [], V6 := false }

/-- A network request body of the examples. -/
def networkBody : String := "\x7b\"NetworkID\":\"n1\"\x7d"

/-- A codec instance for the examples. It is given on the bodies the examples use: the
empty body, which the decoder rejects with `EOF`, and one well-formed body per request
type; the well-formed network bodies are decoded to themselves. -/
def exampleCodec : Codec textApi :=
  let net : String → Except String String := fun body =>
    if body = networkBody then .ok body else .error "EOF"
  { decodeCreateNetworkRequest := net, decodeDeleteNetworkRequest := net,
    decodeCreateEndpointRequest := net, decodeDeleteEndpointRequest := net,
    decodeEndpointInfoRequest := net, decodeJoinRequest := net, decodeLeaveRequest := net,
    decodeDiscoveryNotification := net,
    decodeRequestPoolRequest := fun body =>
      if body = requestPoolBody then .ok requestPoolDecoded else .error "EOF",
    decodeReleasePoolRequest := fun body =>
      if body = "\x7b\"PoolID\":\"p1\"\x7d" then .ok { PoolID := "p1" } else .error "EOF",
    decodeRequestAddressRequest := fun body =>
      if body = "\x7b\"PoolID\":\"p1\",\"Address\":\"10.2.3.x\"\x7d" then
        .ok { PoolID := "p1", Address := "10.2.3.x", Options := none }
      else .error "EOF",
    decodeReleaseAddressRequest := fun body =>
      if body = "\x7b\"PoolID\":\"p1\",\"Address\":\"\"\x7d" then
        .ok { PoolID := "p1", Address := "" }
      else .error "EOF",
    encodeGetCapabilityResponse := fun v => .ok v,
    encodeCreateEndpointResponse := fun v => .ok v,
    encodeEndpointInfoResponse := fun v => .ok v,
    encodeJoinResponse := fun v => .ok v }

/-- A network driver stub: every method answers with the error `err` and counts the call
in its state. -/
def stubDriver (err : GoError) : Driver textApi Nat :=
  { GetCapabilities := fun n => ((some "\x7b\"Scope\":\"local\"\x7d", err), n + 1),
    CreateNetwork := fun _ n => (err, n + 1),
    DeleteNetwork := fun _ n => (err, n + 1),
    CreateEndpoint := fun _ n => ((none, err), n + 1),
    DeleteEndpoint := fun _ n => (err, n + 1),
    EndpointInfo := fun _ n => ((none, err), n + 1),
    JoinEndpoint := fun _ n => ((none, err), n + 1),
    LeaveEndpoint := fun _ n => (err, n + 1),
    DiscoverNew := fun _ n => (err, n + 1),
    DiscoverDelete := fun _ n => (err, n + 1) }

/-- The network `10.2.3.0/24`. -/
def net10_2_3_0 : IPNet := { IP := [10, 2, 3, 0], Mask := [255, 255, 255, 0] }

/-- An IPAM driver stub: `RequestPool` answers `("p1", 10.2.3.0/24, empty map)`,
`RequestAddress` an address of that network, every method with the error `err`; the state
counts the calls. -/
def stubIpam (err : GoError) : Ipam Nat :=
  { GetDefaultAddressSpaces := fun n => (("mojaLocal", "mojaGlobal", err), n + 1),
    RequestPool := fun _ _ _ _ _ n => (("p1", some net10_2_3_0, some [], err), n + 1),
    ReleasePool := fun _ n => (err, n + 1),
    RequestAddress := fun _ _ _ n =>
      ((some { IP := [10, 2, 3, 5], Mask := [255, 255, 255, 0] }, some [], err), n + 1),
    ReleaseAddress := fun _ _ n => (err, n + 1) }

end Isolhttps

namespace Mojaipam

open Go

/-- A codec instance for the examples, given on the bodies the examples use: the empty
body, rejected with `EOF`, and one well-formed body per request type. -/
def exampleCodec : Codec :=
  { decodeRequestPoolRequest := fun body =>
      if body = Isolhttps.requestPoolBody then
        .ok { AddressSpace := "mojaLocal", Pool := "", SubPool := "", Options := some [],
              V6 := false }
      else .error "EOF",
    decodeReleasePoolRequest := fun body =>
      if body = "\x7b\"PoolID\":\"p1\"\x7d" then .ok { PoolID := "p1" } else .error "EOF",
    decodeRequestAddressRequest := fun body =>
      if body = "\x7b\"PoolID\":\"p1\",\"Address\":\"\"\x7d" then
        .ok { PoolID := "p1", Address := "", Options := none }
      else .error "EOF",
    decodeReleaseAddressRequest := fun body =>
      if body = "\x7b\"PoolID\":\"p1\",\"Address\":\"10.2.3.5\"\x7d" then
        .ok { PoolID := "p1", Address := "10.2.3.5" }
      else .error "EOF" }

/-- An IPAM driver stub: every method answers with the error `err`; the state counts the
calls. -/
def stubIpam (err : GoError) : Ipam Nat :=
  { GetCapabilities := fun n => ((some { RequiresMACAddress := false }, err), n + 1),
    GetDefaultAddressSpaces := fun n =>
      ((some { LocalDefaultAddressSpace := "mojaLocal",
               GlobalDefaultAddressSpace := "mojaGlobal" }, err), n + 1),
    RequestPool := fun _ n =>
      ((some { PoolID := "p1", Pool := "10.2.3.0/24", Data := some [] }, err), n + 1),
    ReleasePool := fun _ n => (err, n + 1),
    RequestAddress := fun _ n =>
      ((some { Address := "10.2.3.5/24", Data := some [] }, err), n + 1),
    ReleaseAddress := fun _ n => (err, n + 1) }

end Mojaipam

/-! # Theorems -/

namespace Isolhttps

open Go

/-! ## The route table -/

theorem main_both : main true true =
    ⟨.notFound, wireProtocol.map fun e => ⟨"POST", e.1, e.2⟩⟩ := by decide

theorem main_network_only : main true false =
    ⟨.notFound, (wireProtocol.take 9).map fun e => ⟨"POST", e.1, e.2⟩⟩ := by decide

theorem main_ipam_only : main false true =
    ⟨.notFound, (wireProtocol.take 2 ++ wireProtocol.drop 9).map fun e => ⟨"POST", e.1, e.2⟩⟩ := by
  decide

/-- A request that no route matches goes to the not-found handler. -/
theorem resolve_notFound (router : Router) (method path : String)
    (h : ∀ rt ∈ router.routes, rt.path ≠ path ∨ rt.method ≠ method) :
    router.resolve method path = router.NotFoundHandler := by
  have hfind : router.routes.find? (fun rt => rt.method == method && rt.path == path) = none := by
    rw [List.find?_eq_none]
    intro rt hrt
    rcases h rt hrt with h1 | h1 <;> simp [h1]
  simp [Router.resolve, hfind]

/-- Resolution in a router whose routes are all `POST` routes, read off its table. -/
theorem resolve_post_table (nf : HandlerFunc) (tbl : List (String × HandlerFunc))
    (method path : String) :
    Router.resolve ⟨nf, tbl.map fun e => ⟨"POST", e.1, e.2⟩⟩ method path =
      if method = "POST" then ((tbl.find? fun e => e.1 == path).map Prod.snd).getD nf
      else nf := by
  induction tbl with
  | nil => simp [Router.resolve]
  | cons e rest ih =>
    unfold Router.resolve at ih ⊢
    simp only [List.map_cons, List.find?_cons] at ih ⊢
    by_cases hm : method = "POST"
    · subst hm
      cases hb : (e.1 == path)
      · simpa [hb] using ih
      · simp [hb]
    · have hm2 : ("POST" == method) = false := by
        simp; exact fun h => hm h.symm
      simpa [hm, hm2] using ih

theorem ne_ipam_path (q m : String) (hq : q.data.getD 1 'I' ≠ 'I') :
    q ≠ "/IpamDriver." ++ m := by
  intro h
  apply hq
  rw [h]
  simp [String.data_append]

theorem ne_network_path (q m : String) (hq : q.data.getD 1 'N' ≠ 'N') :
    q ≠ "/NetworkDriver." ++ m := by
  intro h
  apply hq
  rw [h]
  simp [String.data_append]

theorem wireProtocol_bound :
    ∀ e ∈ wireProtocol, (main true true).resolve "POST" e.1 = e.2 ∧ e.2 ≠ .notFound := by
  decide

/-- With only the network driver present, no route has a path under the IPAM receiver. -/
theorem network_only_misses_ipam (method m : String) :
    (main true false).resolve method ("/IpamDriver." ++ m) = .notFound := by
  rw [main_network_only]
  apply resolve_notFound
  intro rt hrt
  left
  simp only [wireProtocol, List.take, List.map, List.mem_cons, List.mem_singleton,
    List.not_mem_nil, or_false] at hrt
  rcases hrt with h | h | h | h | h | h | h | h | h <;> subst h <;>
    exact ne_ipam_path _ _ (by decide)

/-- With only the IPAM driver present, the one route under the network receiver is
`GetCapabilities`: every other path under that receiver is unregistered. -/
theorem ipam_only_misses_network (method m : String) (hm : m ≠ "GetCapabilities") :
    (main false true).resolve method ("/NetworkDriver." ++ m) = .notFound := by
  rw [main_ipam_only]
  apply resolve_notFound
  intro rt hrt
  left
  simp only [wireProtocol, List.take, List.drop, List.map, List.cons_append, List.nil_append,
    List.mem_cons, List.mem_singleton, List.not_mem_nil, or_false] at hrt
  rcases hrt with h | h | h | h | h | h | h <;> subst h
  · exact ne_network_path _ _ (by decide)
  · intro h
    apply hm
    have h2 : ("/NetworkDriver." ++ "GetCapabilities" : String) = "/NetworkDriver." ++ m := h
    have h3 := congrArg String.data h2
    simp only [String.data_append] at h3
    exact (String.ext (List.append_cancel_left h3)).symm
  all_goals exact ne_network_path _ _ (by decide)

/-- C3: in the route table that `main` builds when the IPAM driver is nil and the network
driver is present, every path `/IpamDriver.<Method>`, whatever the method name (and
whatever the HTTP method), resolves to the not-found handler: the request is answered by
`notFound` with status 404 and no capability method is called. -/
theorem C3_ipam_paths_not_found {api : Api} {σ τ : Type} (c : Codec api) (d : Driver api σ)
    (method m body : String) (s : State σ τ) :
    (main true false).resolve method ("/IpamDriver." ++ m) = .notFound ∧
    serve c (⟨some d, none⟩ : isolhttps api σ τ) ⟨method, "/IpamDriver." ++ m, body⟩ s =
      .returned (notFound ResponseWriter.fresh) s [] ∧
    (notFound ResponseWriter.fresh).status = StatusNotFound ∧
    (notFound ResponseWriter.fresh).writes = ["404 page not found\n"] := by
  refine ⟨network_only_misses_ipam method m, ?_, by decide, by decide⟩
  simp only [serve, Option.isSome_some, Option.isSome_none, network_only_misses_ipam,
    HandlerFunc.ServeHTTP]

/-- C8: in the route table that `main` builds with both capabilities present, each of the
14 paths of the wire table is bound, for `POST`, to the handler of its operation, and a
request reaches a handler other than not-found if and only if its method is `POST` and its
path is one of these 14; in particular `/NetworkDriver.DiscoverNew`,
`/NetworkDriver.DiscoverDelete`, `/IpamDriver.GetCapabilities` and a `GET` of a table path
resolve to not-found. -/
theorem C8_route_table :
    wireProtocol.length = 14 ∧
    (∀ e ∈ wireProtocol, (main true true).resolve "POST" e.1 = e.2) ∧
    (∀ method path : String,
      (main true true).resolve method path ≠ .notFound ↔
        (method = "POST" ∧ path ∈ wireProtocol.map Prod.fst)) ∧
    (main true true).resolve "POST" "/NetworkDriver.DiscoverNew" = .notFound ∧
    (main true true).resolve "POST" "/NetworkDriver.DiscoverDelete" = .notFound ∧
    (main true true).resolve "POST" "/IpamDriver.GetCapabilities" = .notFound ∧
    (main true true).resolve "GET" "/Plugin.Activate" = .notFound := by
  refine ⟨by decide, fun e he => (wireProtocol_bound e he).1, ?_, by decide, by decide,
    by decide, by decide⟩
  intro method path
  constructor
  · intro h
    rw [main_both, resolve_post_table] at h
    by_cases hm : method = "POST"
    · refine ⟨hm, ?_⟩
      simp only [hm, if_true] at h
      cases hf : wireProtocol.find? (fun e => e.1 == path) with
      | none => simp [hf] at h
      | some e =>
        have h1 := List.find?_some hf
        have h2 := List.mem_of_find?_eq_some hf
        simp only [beq_iff_eq] at h1
        exact List.mem_map.mpr ⟨e, h2, h1⟩
    · simp [hm] at h
  · rintro ⟨hm, hp⟩
    obtain ⟨e, he, rfl⟩ := List.mem_map.mp hp
    subst hm
    rw [(wireProtocol_bound e he).1]
    exact (wireProtocol_bound e he).2

/-- C2 (the code departs from the claim): in the route table that `main` builds when the
network driver is nil and the IPAM driver is present, `POST /NetworkDriver.GetCapabilities`
is registered, because `main` binds it outside the `driver != nil` guard; the request
reaches `getCapabilities`, which calls a method of the nil driver and panics. -/
theorem C2_getCapabilities_registered_without_driver :
    (main false true).resolve "POST" "/NetworkDriver.GetCapabilities" = .getCapabilities ∧
    serve exampleCodec (⟨none, some (stubIpam none)⟩ : isolhttps textApi Nat Nat)
        ⟨"POST", "/NetworkDriver.GetCapabilities", ""⟩ ⟨0, 0⟩ =
      .panicked nilDereference ⟨0, 0⟩ [] ∧
    (main true true).resolve "POST" "/NetworkDriver.CreateNetwork" = .createNetwork ∧
    (main false true).resolve "POST" "/NetworkDriver.CreateNetwork" = .notFound := by
  refine ⟨by decide, ?_, by decide, by decide⟩
  rfl

/-! ## The handshake -/

/-- C4: the `Implements` list that `handshake` encodes holds `NetworkDriver` exactly when
the network driver is present and `IpamDriver` exactly when the IPAM driver is present,
holds no other name and no name twice, and is a function of the two presence flags alone;
the handler writes the encoded list in one piece, calls no capability method and leaves
the implementation states as they are, whatever the request. The four configurations give
the four texts listed. -/
theorem C4_handshake_implements {api : Api} {σ τ : Type} (c : Codec api)
    (h : isolhttps api σ τ) (w : ResponseWriter) (r : Request) (s : State σ τ) :
    handshakeImplements h =
      (if h.d.isSome then ["NetworkDriver"] else []) ++
        (if h.i.isSome then ["IpamDriver"] else []) ∧
    h.handshake c w r s =
      .returned (w.Write (encodeHandshakeResp (handshakeImplements h) ++ "\n")) s [] ∧
    ("NetworkDriver" ∈ handshakeImplements h ↔ h.d.isSome = true) ∧
    ("IpamDriver" ∈ handshakeImplements h ↔ h.i.isSome = true) ∧
    (∀ name ∈ handshakeImplements h, name = "NetworkDriver" ∨ name = "IpamDriver") ∧
    (handshakeImplements h).Nodup ∧
    encodeHandshakeResp ["NetworkDriver", "IpamDriver"] =
      "\x7b\"Implements\":[\"NetworkDriver\",\"IpamDriver\"]\x7d" ∧
    encodeHandshakeResp ["NetworkDriver"] = "\x7b\"Implements\":[\"NetworkDriver\"]\x7d" ∧
    encodeHandshakeResp ["IpamDriver"] = "\x7b\"Implements\":[\"IpamDriver\"]\x7d" ∧
    encodeHandshakeResp [] = "\x7b\"Implements\":null\x7d" := by
  refine ⟨?_, ?_, ?_, ?_, ?_, ?_, by decide, by decide, by decide, by decide⟩ <;>
    rcases h with ⟨_ | d, _ | i⟩ <;>
    simp [handshakeImplements, isolhttps.handshake, Encode]

/-! ## The error envelope -/

theorem doPrintf_of_no_percent (n : Nat) (l : List Char) (h : '%' ∉ l) (hn : l.length ≤ n) :
    doPrintf n l = l := by
  induction l generalizing n with
  | nil => cases n <;> rfl
  | cons c cs ih =>
    cases n with
    | zero => simp at hn
    | succ n =>
      have hc : (c == '%') = false := by
        simp only [beq_eq_false_iff_ne, ne_eq]
        intro hc
        exact h (by rw [hc]; exact List.mem_cons_self _ _)
      have hcs : '%' ∉ cs := fun hx => h (List.mem_cons_of_mem _ hx)
      simp only [doPrintf, hc, Bool.false_eq_true, if_false]
      rw [ih n hcs (by simpa using hn)]

/-- A format without a percent sign is printed as it is. -/
theorem Sprintf_of_no_percent (m : String) (h : '%' ∉ m.data) : Sprintf m = m := by
  unfold Sprintf
  have hd : doPrintf m.length m.data = m.data := doPrintf_of_no_percent _ _ h (Nat.le_refl _)
  rw [hd]

theorem encodeErr (x : String) : encodeStrMap (some [("Err", x)]) ++ "\n" = errEnvelope x := by
  simp [encodeStrMap, sortKeys, insertSorted, joinComma, errEnvelope, String.append_assoc]

/-- On a fresh writer `errorResponse` leaves status 500 and the envelope of the formatted
message. -/
theorem errorResponse_fresh (m : String) :
    errorResponse ResponseWriter.fresh m =
      ⟨[], true, StatusInternalServerError, [errEnvelope (Sprintf m)]⟩ := by
  simp [errorResponse, Encode, ResponseWriter.WriteHeader, ResponseWriter.Write,
    ResponseWriter.fresh, encodeErr]

/-- For a message without a percent sign the envelope carries the message unchanged. -/
theorem errorResponse_of_no_percent (m : String) (h : '%' ∉ m.data) :
    errorResponse ResponseWriter.fresh m =
      ⟨[], true, StatusInternalServerError, [errEnvelope m]⟩ := by
  rw [errorResponse_fresh, Sprintf_of_no_percent m h]

/-- Every handler that forwards to a capability method answers a failure of that method
with `errorResponse` applied to the message: the capability is called once, and the reply
is status 500 with the envelope of `fmt.Sprintf(message)`. -/
theorem driver_error_goes_to_errorResponse {api : Api} {σ τ : Type} (c : Codec api)
    (h : isolhttps api σ τ) (r : Request) (s : State σ τ) (m : String) :
    (∀ d, h.d = some d → (d.GetCapabilities s.d).1.2 = some m →
      h.getCapabilities c ResponseWriter.fresh r s =
        .returned (errorResponse ResponseWriter.fresh m)
          { s with d := (d.GetCapabilities s.d).2 } [.GetCapabilities]) ∧
    (∀ rq d, c.decodeCreateNetworkRequest r.Body = .ok rq → h.d = some d →
      (d.CreateNetwork rq s.d).1 = some m →
      h.createNetwork c ResponseWriter.fresh r s =
        .returned (errorResponse ResponseWriter.fresh m)
          { s with d := (d.CreateNetwork rq s.d).2 } [.CreateNetwork rq]) ∧
    (∀ rq d, c.decodeDeleteNetworkRequest r.Body = .ok rq → h.d = some d →
      (d.DeleteNetwork rq s.d).1 = some m →
      h.deleteNetwork c ResponseWriter.fresh r s =
        .returned (errorResponse ResponseWriter.fresh m)
          { s with d := (d.DeleteNetwork rq s.d).2 } [.DeleteNetwork rq]) ∧
    (∀ rq d, c.decodeCreateEndpointRequest r.Body = .ok rq → h.d = some d →
      (d.CreateEndpoint rq s.d).1.2 = some m →
      h.createEndpoint c ResponseWriter.fresh r s =
        .returned (errorResponse ResponseWriter.fresh m)
          { s with d := (d.CreateEndpoint rq s.d).2 } [.CreateEndpoint rq]) ∧
    (∀ rq d, c.decodeDeleteEndpointRequest r.Body = .ok rq → h.d = some d →
      (d.DeleteEndpoint rq s.d).1 = some m →
      h.deleteEndpoint c ResponseWriter.fresh r s =
        .returned (errorResponse ResponseWriter.fresh m)
          { s with d := (d.DeleteEndpoint rq s.d).2 } [.DeleteEndpoint rq]) ∧
    (∀ rq d, c.decodeEndpointInfoRequest r.Body = .ok rq → h.d = some d →
      (d.EndpointInfo rq s.d).1.2 = some m →
      h.infoEndpoint c ResponseWriter.fresh r s =
        .returned (errorResponse ResponseWriter.fresh m)
          { s with d := (d.EndpointInfo rq s.d).2 } [.EndpointInfo rq]) ∧
    (∀ rq d, c.decodeJoinRequest r.Body = .ok rq → h.d = some d →
      (d.JoinEndpoint rq s.d).1.2 = some m →
      h.joinEndpoint c ResponseWriter.fresh r s =
        .returned (errorResponse ResponseWriter.fresh m)
          { s with d := (d.JoinEndpoint rq s.d).2 } [.JoinEndpoint rq]) ∧
    (∀ rq d, c.decodeLeaveRequest r.Body = .ok rq → h.d = some d →
      (d.LeaveEndpoint rq s.d).1 = some m →
      h.leaveEndpoint c ResponseWriter.fresh r s =
        .returned (errorResponse ResponseWriter.fresh m)
          { s with d := (d.LeaveEndpoint rq s.d).2 } [.LeaveEndpoint rq]) ∧
    (∀ i, h.i = some i → (i.GetDefaultAddressSpaces s.i).1.2.2 = some m →
      h.getDefaultAddressSpaces c ResponseWriter.fresh r s =
        .returned (errorResponse ResponseWriter.fresh m)
          { s with i := (i.GetDefaultAddressSpaces s.i).2 } [.GetDefaultAddressSpaces]) ∧
    (∀ rq i, c.decodeRequestPoolRequest r.Body = .ok rq → h.i = some i →
      (i.RequestPool rq.AddressSpace rq.Pool rq.SubPool rq.Options rq.V6 s.i).1.2.2.2 = some m →
      h.requestPool c ResponseWriter.fresh r s =
        .returned (errorResponse ResponseWriter.fresh m)
          { s with i := (i.RequestPool rq.AddressSpace rq.Pool rq.SubPool rq.Options rq.V6 s.i).2 }
          [.RequestPool rq.AddressSpace rq.Pool rq.SubPool rq.Options rq.V6]) ∧
    (∀ rq i, c.decodeReleasePoolRequest r.Body = .ok rq → h.i = some i →
      (i.ReleasePool rq.PoolID s.i).1 = some m →
      h.releasePool c ResponseWriter.fresh r s =
        .returned (errorResponse ResponseWriter.fresh m)
          { s with i := (i.ReleasePool rq.PoolID s.i).2 } [.ReleasePool rq.PoolID]) ∧
    (∀ rq i, c.decodeRequestAddressRequest r.Body = .ok rq → h.i = some i →
      (i.RequestAddress rq.PoolID (ParseIP rq.Address) rq.Options s.i).1.2.2 = some m →
      h.requestAddress c ResponseWriter.fresh r s =
        .returned (errorResponse ResponseWriter.fresh m)
          { s with i := (i.RequestAddress rq.PoolID (ParseIP rq.Address) rq.Options s.i).2 }
          [.RequestAddress rq.PoolID (ParseIP rq.Address) rq.Options]) ∧
    (∀ rq i, c.decodeReleaseAddressRequest r.Body = .ok rq → h.i = some i →
      (i.ReleaseAddress rq.PoolID (ParseIP rq.Address) s.i).1 = some m →
      h.releaseAddress c ResponseWriter.fresh r s =
        .returned (errorResponse ResponseWriter.fresh m)
          { s with i := (i.ReleaseAddress rq.PoolID (ParseIP rq.Address) s.i).2 }
          [.ReleaseAddress rq.PoolID (ParseIP rq.Address)]) := by
  refine ⟨?_, ?_, ?_, ?_, ?_, ?_, ?_, ?_, ?_, ?_, ?_, ?_, ?_⟩
  · intro d hd herr
    simp only [isolhttps.getCapabilities, hd, herr, objectOrErrorResponse]
  · intro rq d hdec hd herr
    simp only [isolhttps.createNetwork, hdec, hd, herr, emptyOrErrorResponse]
  · intro rq d hdec hd herr
    simp only [isolhttps.deleteNetwork, hdec, hd, herr, emptyOrErrorResponse]
  · intro rq d hdec hd herr
    simp only [isolhttps.createEndpoint, hdec, hd, herr, objectOrErrorResponse]
  · intro rq d hdec hd herr
    simp only [isolhttps.deleteEndpoint, hdec, hd, herr, emptyOrErrorResponse]
  · intro rq d hdec hd herr
    simp only [isolhttps.infoEndpoint, hdec, hd, herr, objectOrErrorResponse]
  · intro rq d hdec hd herr
    simp only [isolhttps.joinEndpoint, hdec, hd, herr, objectOrErrorResponse]
  · intro rq d hdec hd herr
    simp only [isolhttps.leaveEndpoint, hdec, hd, herr, emptyOrErrorResponse]
  · intro i hi herr
    simp only [isolhttps.getDefaultAddressSpaces, hi, herr, objectOrErrorResponse]
  · intro rq i hdec hi herr
    simp only [isolhttps.requestPool, decode, hdec, hi, herr]
  · intro rq i hdec hi herr
    simp only [isolhttps.releasePool, decode, hdec, hi, herr, emptyOrErrorResponse]
  · intro rq i hdec hi herr
    simp only [isolhttps.requestAddress, decode, hdec, hi, herr]
  · intro rq i hdec hi herr
    simp only [isolhttps.releaseAddress, decode, hdec, hi, herr, emptyOrErrorResponse]

/-- C1 (the code departs from the claim): `errorResponse(w, err.Error())` passes the message
to `fmt.Sprintf` as the format string, so a message with a percent sign is rewritten. With
the message `disk 100% full` the response has status 500 and the envelope of
`disk 100%!f(MISSING)ull`, both from `errorResponse` itself and through the handler
`releasePool`; the handler of the same operation in `mojaipam` forwards the message
unchanged, and so does `errorResponse` for `pool not found`. -/
theorem C1_error_message_is_formatted :
    errorResponse ResponseWriter.fresh "disk 100% full" =
      ⟨[], true, 500, ["\x7b\"Err\":\"disk 100%!f(MISSING)ull\"\x7d\n"]⟩ ∧
    (isolhttps.releasePool exampleCodec
        (⟨none, some (stubIpam (some "disk 100% full"))⟩ : isolhttps textApi Nat Nat)
        ResponseWriter.fresh ⟨"POST", "/IpamDriver.ReleasePool", "\x7b\"PoolID\":\"p1\"\x7d"⟩
        ⟨0, 0⟩).response =
      some ⟨[], true, 500, ["\x7b\"Err\":\"disk 100%!f(MISSING)ull\"\x7d\n"]⟩ ∧
    errEnvelope "disk 100% full" = "\x7b\"Err\":\"disk 100% full\"\x7d\n" ∧
    (Mojaipam.Handler.releasePool Mojaipam.exampleCodec
        ⟨some (Mojaipam.stubIpam (some "disk 100% full"))⟩
        ResponseWriter.fresh "\x7b\"PoolID\":\"p1\"\x7d" 0).response =
      some ⟨[], true, 500, ["\x7b\"Err\":\"disk 100% full\"\x7d\n"]⟩ ∧
    errorResponse ResponseWriter.fresh "pool not found" =
      ⟨[], true, 500, ["\x7b\"Err\":\"pool not found\"\x7d\n"]⟩ := by
  refine ⟨by decide, by decide, by decide, by decide, by decide⟩

end Isolhttps

namespace Mojaipam

open Go

/-! ## The handlers of `mojaipam` -/

theorem Error_writes (w : ResponseWriter) (e : String) (code : Nat) :
    (Error w e code).writes = w.writes ++ [e ++ "\n"] := by
  by_cases hw : w.wroteHeader <;>
    simp [Error, ResponseWriter.Set, ResponseWriter.Write, ResponseWriter.WriteHeader, hw]

theorem EncodeResponse_writes (w : ResponseWriter) (t e : String) :
    (EncodeResponse w (.ok t) e).writes = w.writes ++ [t ++ "\n"] := by
  by_cases hw : w.wroteHeader <;> by_cases he : e = "" <;>
    simp [EncodeResponse, Encode, ResponseWriter.Write, ResponseWriter.WriteHeader, hw, he]

theorem EncodeResponse_ptr_writes {α : Type} (enc : α → Except String String)
    (henc : ∀ v, ∃ t, enc v = .ok t) (w : ResponseWriter) (v : Option α) (e : String) :
    (EncodeResponse w (encodePtr enc v) e).writes.length = w.writes.length + 1 := by
  cases v with
  | none => simp [encodePtr, EncodeResponse_writes]
  | some v =>
    obtain ⟨t, ht⟩ := henc v
    simp [encodePtr, ht, EncodeResponse_writes]

theorem EncodeResponse_err_writes (w : ResponseWriter) (x : ErrorResponse) (e : String) :
    (EncodeResponse w (encodeErrorResponse x) e).writes.length = w.writes.length + 1 := by
  simp [encodeErrorResponse, EncodeResponse_writes]

/-- Every handler of `initMux` other than the one at `releaseAddressPath` writes exactly
once, whatever the body and the driver do, when it returns. -/
theorem other_operations_write_once {τ : Type} (c : Codec) (h : Handler τ) (op : Operation)
    (hop : op ≠ .releaseAddress) (body : String) (s : τ) (w : ResponseWriter)
    (hw : (h.initMux c op ResponseWriter.fresh body s).response = some w) :
    w.writes.length = 1 := by
  have h1 := EncodeResponse_ptr_writes encodeCapabilitiesResponse (fun v => ⟨_, rfl⟩)
  have h2 := EncodeResponse_ptr_writes encodeAddressSpacesResponse (fun v => ⟨_, rfl⟩)
  have h3 := EncodeResponse_ptr_writes encodeRequestPoolResponse (fun v => ⟨_, rfl⟩)
  have h4 := EncodeResponse_ptr_writes encodeRequestAddressResponse (fun v => ⟨_, rfl⟩)
  have hfresh : ResponseWriter.fresh.writes = [] := rfl
  rcases h with ⟨_ | m⟩
  · cases op
    case releaseAddress => exact absurd rfl hop
    case capabilities => simp [Handler.initMux, Handler.capabilities, Outcome.response] at hw
    case addressSpaces => simp [Handler.initMux, Handler.addressSpaces, Outcome.response] at hw
    case requestPool =>
      cases hd : c.decodeRequestPoolRequest body <;>
        simp [Handler.initMux, Handler.requestPool, DecodeRequest, hd, Outcome.response] at hw
      subst hw; simp [Error_writes, hfresh]
    case releasePool =>
      cases hd : c.decodeReleasePoolRequest body <;>
        simp [Handler.initMux, Handler.releasePool, DecodeRequest, hd, Outcome.response] at hw
      subst hw; simp [Error_writes, hfresh]
    case requestAddress =>
      cases hd : c.decodeRequestAddressRequest body <;>
        simp [Handler.initMux, Handler.requestAddress, DecodeRequest, hd, Outcome.response] at hw
      subst hw; simp [Error_writes, hfresh]
  · cases op
    case releaseAddress => exact absurd rfl hop
    case capabilities =>
      simp only [Handler.initMux, Handler.capabilities] at hw
      split at hw <;> simp only [Outcome.response, Option.some.injEq] at hw <;> subst hw <;>
        simp [h1, EncodeResponse_err_writes, hfresh]
    case addressSpaces =>
      simp only [Handler.initMux, Handler.addressSpaces] at hw
      split at hw <;> simp only [Outcome.response, Option.some.injEq] at hw <;> subst hw <;>
        simp [h2, EncodeResponse_err_writes, hfresh]
    case requestPool =>
      cases hd : c.decodeRequestPoolRequest body <;>
        simp only [Handler.initMux, Handler.requestPool, DecodeRequest, hd] at hw
      · simp only [Outcome.response, Option.some.injEq] at hw
        subst hw; simp [Error_writes, hfresh]
      · split at hw <;> simp only [Outcome.response, Option.some.injEq] at hw <;> subst hw <;>
          simp [h3, EncodeResponse_err_writes, hfresh]
    case releasePool =>
      cases hd : c.decodeReleasePoolRequest body <;>
        simp only [Handler.initMux, Handler.releasePool, DecodeRequest, hd] at hw
      · simp only [Outcome.response, Option.some.injEq] at hw
        subst hw; simp [Error_writes, hfresh]
      · split at hw <;> simp only [Outcome.response, Option.some.injEq] at hw <;> subst hw <;>
          simp [EncodeResponse_writes, EncodeResponse_err_writes, hfresh]
    case requestAddress =>
      cases hd : c.decodeRequestAddressRequest body <;>
        simp only [Handler.initMux, Handler.requestAddress, DecodeRequest, hd] at hw
      · simp only [Outcome.response, Option.some.injEq] at hw
        subst hw; simp [Error_writes, hfresh]
      · split at hw <;> simp only [Outcome.response, Option.some.injEq] at hw <;> subst hw <;>
          simp [h4, EncodeResponse_err_writes, hfresh]

/-- Whenever the driver's `ReleaseAddress` fails, the handler at `releaseAddressPath` writes
two envelopes: the error envelope and then the empty object. -/
theorem releaseAddress_failure_writes_two {τ : Type} (c : Codec) (m : Ipam τ) (body : String)
    (s s1 : τ) (req : ReleaseAddressRequest) (msg : String)
    (hdec : c.decodeReleaseAddressRequest body = .ok req)
    (hres : m.ReleaseAddress req s = (some msg, s1)) :
    ∃ w, Handler.releaseAddress c ⟨some m⟩ ResponseWriter.fresh body s =
        .returned w s1 [.ReleaseAddress req] ∧
      w.writes = [encodeStruct [("Err", encodeString msg)] ++ "\n", "\x7b\x7d\n"] := by
  refine ⟨EncodeResponse (EncodeResponse ResponseWriter.fresh
    (encodeErrorResponse (NewErrorResponse msg)) msg) (.ok (encodeStrMap (some []))) "",
    by simp only [Handler.releaseAddress, DecodeRequest, hdec, hres], ?_⟩
  have hfresh : ResponseWriter.fresh.writes = [] := rfl
  simp [EncodeResponse_writes, encodeErrorResponse, NewErrorResponse, hfresh, encodeStrMap,
    sortKeys, joinComma]

/-- C6 (the code departs from the claim): when the driver's `ReleaseAddress` fails, the
handler at `releaseAddressPath` writes the error envelope and then, for lack of a
`return`, the empty object: two envelopes for one request. The handler at
`releasePoolPath`, for the same failure, writes the error envelope alone. -/
theorem C6_releaseAddress_writes_twice :
    (Handler.releaseAddress exampleCodec ⟨some (stubIpam (some "address not found"))⟩
        ResponseWriter.fresh "\x7b\"PoolID\":\"p1\",\"Address\":\"10.2.3.5\"\x7d" 0).response =
      some ⟨[], true, 500, ["\x7b\"Err\":\"address not found\"\x7d\n", "\x7b\x7d\n"]⟩ ∧
    (Handler.releasePool exampleCodec ⟨some (stubIpam (some "address not found"))⟩
        ResponseWriter.fresh "\x7b\"PoolID\":\"p1\"\x7d" 0).response =
      some ⟨[], true, 500, ["\x7b\"Err\":\"address not found\"\x7d\n"]⟩ := by
  refine ⟨by decide, by decide⟩

end Mojaipam

namespace Isolhttps

open Go

/-! ## Malformed bodies -/

theorem sendError_fresh (msg : String) (code : Nat) :
    sendError ResponseWriter.fresh msg code =
      ⟨[("Content-Type", "text/plain; charset=utf-8"), ("X-Content-Type-Options", "nosniff")],
        true, code, [msg ++ "\n"]⟩ := by
  simp [sendError, Error, ResponseWriter.Set, ResponseWriter.Write, ResponseWriter.WriteHeader,
    ResponseWriter.fresh]

theorem body_singleton (w : ResponseWriter) (t : String) (h : w.writes = [t]) : w.body = t := by
  simp [ResponseWriter.body, h, String.join]

/-- A text that does not start with an opening brace is no error envelope. -/
theorem ne_errEnvelope (t m : String) (ht : t.data.head? ≠ some (Char.ofNat 123)) :
    t ≠ errEnvelope m := by
  intro h
  apply ht
  rw [h]
  simp [errEnvelope, String.data_append]

/-- C5: for each of the eleven handlers that read a request body, a body whose decoding
into the request struct of the handler fails is answered at once: the handler returns
after `sendError` with status 400, without any capability call and with the
implementation states untouched. The reply is plain text (the content type is
`text/plain`), the decoding message or a fixed sentence on a line, and is never the
`Err` envelope of any message. -/
theorem C5_decode_failure_short_circuits {api : Api} {σ τ : Type} (c : Codec api)
    (h : isolhttps api σ τ) (r : Request) (s : State σ τ) :
    (∀ err, c.decodeCreateNetworkRequest r.Body = .error err →
      h.createNetwork c ResponseWriter.fresh r s =
        .returned (sendError ResponseWriter.fresh ("Unable to decode JSON payload: " ++ err)
          StatusBadRequest) s []) ∧
    (∀ err, c.decodeDeleteNetworkRequest r.Body = .error err →
      h.deleteNetwork c ResponseWriter.fresh r s =
        .returned (sendError ResponseWriter.fresh ("Unable to decode JSON payload: " ++ err)
          StatusBadRequest) s []) ∧
    (∀ err, c.decodeCreateEndpointRequest r.Body = .error err →
      h.createEndpoint c ResponseWriter.fresh r s =
        .returned (sendError ResponseWriter.fresh ("unable to decode JSON payload: " ++ err)
          StatusBadRequest) s []) ∧
    (∀ err, c.decodeDeleteEndpointRequest r.Body = .error err →
      h.deleteEndpoint c ResponseWriter.fresh r s =
        .returned (sendError ResponseWriter.fresh "Could not decode JSON encode payload"
          StatusBadRequest) s []) ∧
    (∀ err, c.decodeEndpointInfoRequest r.Body = .error err →
      h.infoEndpoint c ResponseWriter.fresh r s =
        .returned (sendError ResponseWriter.fresh "Could not decode JSON encode payload"
          StatusBadRequest) s []) ∧
    (∀ err, c.decodeJoinRequest r.Body = .error err →
      h.joinEndpoint c ResponseWriter.fresh r s =
        .returned (sendError ResponseWriter.fresh "Could not decode JSON encode payload"
          StatusBadRequest) s []) ∧
    (∀ err, c.decodeLeaveRequest r.Body = .error err →
      h.leaveEndpoint c ResponseWriter.fresh r s =
        .returned (sendError ResponseWriter.fresh "Could not decode JSON encode payload"
          StatusBadRequest) s []) ∧
    (∀ err, c.decodeRequestPoolRequest r.Body = .error err →
      h.requestPool c ResponseWriter.fresh r s =
        .returned (sendError ResponseWriter.fresh ("Unable to decode JSON payload: " ++ err)
          StatusBadRequest) s []) ∧
    (∀ err, c.decodeReleasePoolRequest r.Body = .error err →
      h.releasePool c ResponseWriter.fresh r s =
        .returned (sendError ResponseWriter.fresh ("Unable to decode JSON payload: " ++ err)
          StatusBadRequest) s []) ∧
    (∀ err, c.decodeRequestAddressRequest r.Body = .error err →
      h.requestAddress c ResponseWriter.fresh r s =
        .returned (sendError ResponseWriter.fresh ("Unable to decode JSON payload: " ++ err)
          StatusBadRequest) s []) ∧
    (∀ err, c.decodeReleaseAddressRequest r.Body = .error err →
      h.releaseAddress c ResponseWriter.fresh r s =
        .returned (sendError ResponseWriter.fresh ("Unable to decode JSON payload: " ++ err)
          StatusBadRequest) s []) ∧
    (∀ msg : String,
      (sendError ResponseWriter.fresh msg StatusBadRequest).status = 400 ∧
      (sendError ResponseWriter.fresh msg StatusBadRequest).writes = [msg ++ "\n"] ∧
      (sendError ResponseWriter.fresh msg StatusBadRequest).body = msg ++ "\n" ∧
      (sendError ResponseWriter.fresh msg StatusBadRequest).Get "Content-Type" =
        some "text/plain; charset=utf-8") ∧
    (∀ err m : String, "Unable to decode JSON payload: " ++ err ++ "\n" ≠ errEnvelope m) ∧
    (∀ err m : String, "unable to decode JSON payload: " ++ err ++ "\n" ≠ errEnvelope m) ∧
    (∀ m : String, "Could not decode JSON encode payload" ++ "\n" ≠ errEnvelope m) := by
  refine ⟨?_, ?_, ?_, ?_, ?_, ?_, ?_, ?_, ?_, ?_, ?_, ?_, ?_, ?_, ?_⟩
  · intro err he; simp only [isolhttps.createNetwork, he]
  · intro err he; simp only [isolhttps.deleteNetwork, he]
  · intro err he; simp only [isolhttps.createEndpoint, he]
  · intro err he; simp only [isolhttps.deleteEndpoint, he]
  · intro err he; simp only [isolhttps.infoEndpoint, he]
  · intro err he; simp only [isolhttps.joinEndpoint, he]
  · intro err he; simp only [isolhttps.leaveEndpoint, he]
  · intro err he; simp only [isolhttps.requestPool, decode, he]
  · intro err he; simp only [isolhttps.releasePool, decode, he]
  · intro err he; simp only [isolhttps.requestAddress, decode, he]
  · intro err he; simp only [isolhttps.releaseAddress, decode, he]
  · intro msg
    rw [sendError_fresh]
    refine ⟨rfl, rfl, body_singleton _ _ rfl, ?_⟩
    simp [ResponseWriter.Get]
  · intro err m
    exact ne_errEnvelope _ _ (by simp [String.data_append])
  · intro err m
    exact ne_errEnvelope _ _ (by simp [String.data_append])
  · intro m
    exact ne_errEnvelope _ _ (by decide)

/-- The empty body, which fails to decode, at `createNetwork` with both stubs present: the
reply is status 400 with the text of the decoding error, and no stub is called. -/
theorem C5_decode_failure_witness :
    exampleCodec.decodeCreateNetworkRequest "" = .error "EOF" ∧
    isolhttps.createNetwork exampleCodec
        (⟨some (stubDriver none), some (stubIpam none)⟩ : isolhttps textApi Nat Nat)
        ResponseWriter.fresh ⟨"POST", "/NetworkDriver.CreateNetwork", ""⟩ ⟨0, 0⟩ =
      .returned (sendError ResponseWriter.fresh "Unable to decode JSON payload: EOF"
        StatusBadRequest) ⟨0, 0⟩ [] :=
  ⟨rfl, (C5_decode_failure_short_circuits exampleCodec _
    ⟨"POST", "/NetworkDriver.CreateNetwork", ""⟩ ⟨0, 0⟩).1 "EOF" rfl⟩

/-! ## Operations without a payload -/

theorem emptyResponse_fresh :
    emptyResponse ResponseWriter.fresh = ⟨[], true, StatusOK, ["\x7b\x7d\n"]⟩ := by
  decide

/-- C7: for each of the six operations without a return payload, when the body decodes,
the driver is present and its method returns a nil error, the handler returns after
`emptyResponse`: the status is 200 (no error status is written) and the body is the empty
JSON object, written once and followed by the newline of the encoder. The driver method is
called once, with the decoded request. -/
theorem C7_empty_object_on_success {api : Api} {σ τ : Type} (c : Codec api)
    (h : isolhttps api σ τ) (r : Request) (s : State σ τ) :
    (∀ rq d, c.decodeCreateNetworkRequest r.Body = .ok rq → h.d = some d →
      (d.CreateNetwork rq s.d).1 = none →
      h.createNetwork c ResponseWriter.fresh r s =
        .returned (emptyResponse ResponseWriter.fresh)
          { s with d := (d.CreateNetwork rq s.d).2 } [.CreateNetwork rq]) ∧
    (∀ rq d, c.decodeDeleteNetworkRequest r.Body = .ok rq → h.d = some d →
      (d.DeleteNetwork rq s.d).1 = none →
      h.deleteNetwork c ResponseWriter.fresh r s =
        .returned (emptyResponse ResponseWriter.fresh)
          { s with d := (d.DeleteNetwork rq s.d).2 } [.DeleteNetwork rq]) ∧
    (∀ rq d, c.decodeDeleteEndpointRequest r.Body = .ok rq → h.d = some d →
      (d.DeleteEndpoint rq s.d).1 = none →
      h.deleteEndpoint c ResponseWriter.fresh r s =
        .returned (emptyResponse ResponseWriter.fresh)
          { s with d := (d.DeleteEndpoint rq s.d).2 } [.DeleteEndpoint rq]) ∧
    (∀ rq d, c.decodeLeaveRequest r.Body = .ok rq → h.d = some d →
      (d.LeaveEndpoint rq s.d).1 = none →
      h.leaveEndpoint c ResponseWriter.fresh r s =
        .returned (emptyResponse ResponseWriter.fresh)
          { s with d := (d.LeaveEndpoint rq s.d).2 } [.LeaveEndpoint rq]) ∧
    (∀ rq i, c.decodeReleasePoolRequest r.Body = .ok rq → h.i = some i →
      (i.ReleasePool rq.PoolID s.i).1 = none →
      h.releasePool c ResponseWriter.fresh r s =
        .returned (emptyResponse ResponseWriter.fresh)
          { s with i := (i.ReleasePool rq.PoolID s.i).2 } [.ReleasePool rq.PoolID]) ∧
    (∀ rq i, c.decodeReleaseAddressRequest r.Body = .ok rq → h.i = some i →
      (i.ReleaseAddress rq.PoolID (ParseIP rq.Address) s.i).1 = none →
      h.releaseAddress c ResponseWriter.fresh r s =
        .returned (emptyResponse ResponseWriter.fresh)
          { s with i := (i.ReleaseAddress rq.PoolID (ParseIP rq.Address) s.i).2 }
          [.ReleaseAddress rq.PoolID (ParseIP rq.Address)]) ∧
    (emptyResponse ResponseWriter.fresh).status = 200 ∧
    (emptyResponse ResponseWriter.fresh).writes = ["\x7b\x7d\n"] ∧
    (emptyResponse ResponseWriter.fresh).body = "\x7b\x7d\n" ∧
    (emptyResponse ResponseWriter.fresh).body ≠ "null\n" ∧
    (emptyResponse ResponseWriter.fresh).body ≠ "" ∧
    (∀ m : String, (emptyResponse ResponseWriter.fresh).body ≠ errEnvelope m) := by
  refine ⟨?_, ?_, ?_, ?_, ?_, ?_, by decide, by decide, by decide, by decide, by decide, ?_⟩
  · intro rq d hdec hd herr
    simp only [isolhttps.createNetwork, hdec, hd, herr, emptyOrErrorResponse]
  · intro rq d hdec hd herr
    simp only [isolhttps.deleteNetwork, hdec, hd, herr, emptyOrErrorResponse]
  · intro rq d hdec hd herr
    simp only [isolhttps.deleteEndpoint, hdec, hd, herr, emptyOrErrorResponse]
  · intro rq d hdec hd herr
    simp only [isolhttps.leaveEndpoint, hdec, hd, herr, emptyOrErrorResponse]
  · intro rq i hdec hi herr
    simp only [isolhttps.releasePool, decode, hdec, hi, herr, emptyOrErrorResponse]
  · intro rq i hdec hi herr
    simp only [isolhttps.releaseAddress, decode, hdec, hi, herr, emptyOrErrorResponse]
  · intro m
    rw [body_singleton _ _ (by decide : (emptyResponse ResponseWriter.fresh).writes = ["\x7b\x7d\n"])]
    intro h
    have h2 := congrArg String.length h
    simp [errEnvelope, encodeString, String.length] at h2
    omega

/-- A well-formed body at `deleteNetwork` with a stub that succeeds: status 200, the body
is the empty object, and the stub was called once. -/
theorem C7_empty_object_witness :
    exampleCodec.decodeDeleteNetworkRequest networkBody = .ok networkBody ∧
    ((stubDriver none).DeleteNetwork networkBody 0).1 = none ∧
    isolhttps.deleteNetwork exampleCodec
        (⟨some (stubDriver none), none⟩ : isolhttps textApi Nat Nat) ResponseWriter.fresh
        ⟨"POST", "/NetworkDriver.DeleteNetwork", networkBody⟩ ⟨0, 0⟩ =
      .returned ⟨[], true, 200, ["\x7b\x7d\n"]⟩ ⟨1, 0⟩ [.DeleteNetwork networkBody] :=
  ⟨rfl, rfl, (C7_empty_object_on_success exampleCodec _
    ⟨"POST", "/NetworkDriver.DeleteNetwork", networkBody⟩ ⟨0, 0⟩).2.1 networkBody
      (stubDriver none) rfl rfl rfl⟩

/-! ## `RequestPool` -/

theorem objectResponse_fresh_ok (t : String) :
    objectResponse ResponseWriter.fresh (.ok t) = ⟨[], true, StatusOK, [t ++ "\n"]⟩ := by
  simp [objectResponse, Encode, ResponseWriter.Write, ResponseWriter.WriteHeader,
    ResponseWriter.fresh]

/-- C9: when the body decodes to `rq`, the IPAM driver is present and its `RequestPool`
returns `(poolID, pool, data)` with a nil error, `requestPool` calls the driver once, with
`rq.AddressSpace`, `rq.Pool`, `rq.SubPool`, `rq.Options`, `rq.V6` as decoded, and answers
with status 200 and one JSON object with the fields `PoolID = poolID`,
`Pool = pool.String()` and `Data = data`. For the body of the scenario, decoded as the
scenario says, and a driver answering `("p1", 10.2.3.0/24, empty map)`, the body is
`{"PoolID":"p1","Pool":"10.2.3.0/24","Data":{}}` followed by the newline of the encoder. -/
theorem C9_requestPool_response {api : Api} {σ τ : Type} (c : Codec api)
    (h : isolhttps api σ τ) (s : State σ τ) (i : Ipam τ) (hi : h.i = some i) :
    (∀ (r : Request) (rq : RequestPoolRequest) (poolID : String) (pool : IPNet)
        (data : StrMap) (is : τ),
      c.decodeRequestPoolRequest r.Body = .ok rq →
      i.RequestPool rq.AddressSpace rq.Pool rq.SubPool rq.Options rq.V6 s.i =
        ((poolID, some pool, data, none), is) →
      h.requestPool c ResponseWriter.fresh r s =
        .returned
          ⟨[], true, 200,
            ["\x7b\"PoolID\":" ++ encodeString poolID ++ ",\"Pool\":" ++
              encodeString pool.String ++ ",\"Data\":" ++ encodeStrMap data ++ "\x7d\n"]⟩
          { s with i := is }
          [.RequestPool rq.AddressSpace rq.Pool rq.SubPool rq.Options rq.V6]) ∧
    (∀ (method path : String) (is : τ),
      c.decodeRequestPoolRequest requestPoolBody =
        .ok { AddressSpace := "mojaLocal", Pool := "", SubPool := "", Options := some [],
              V6 := false } →
      i.RequestPool "mojaLocal" "" "" (some []) false s.i =
        (("p1", some { IP := [10, 2, 3, 0], Mask := [255, 255, 255, 0] }, some [], none), is) →
      (h.requestPool c ResponseWriter.fresh ⟨method, path, requestPoolBody⟩ s).response =
        some ⟨[], true, 200,
          ["\x7b\"PoolID\":\"p1\",\"Pool\":\"10.2.3.0/24\",\"Data\":\x7b\x7d\x7d\n"]⟩) := by
  constructor
  · intro r rq poolID pool data is hdec hcall
    simp only [isolhttps.requestPool, decode, hdec, hi, hcall, objectResponse_fresh_ok]
    have e1 : encodeString "PoolID" = "\"PoolID\"" := by decide
    have e2 : encodeString "Pool" = "\"Pool\"" := by decide
    have e3 : encodeString "Data" = "\"Data\"" := by decide
    simp only [encodeRequestPoolResponse, encodeStruct, List.map, joinComma, e1, e2, e3,
      StatusOK]
    congr 3
    apply String.ext
    simp [String.data_append]
  · intro method path is hdec hcall
    simp only [isolhttps.requestPool, decode, hdec, hi, hcall, objectResponse_fresh_ok,
      Outcome.response]
    decide

/-- The scenario of the specification, with the example codec and the stub that answers
`("p1", 10.2.3.0/24, empty map)`. -/
theorem C9_requestPool_witness :
    exampleCodec.decodeRequestPoolRequest requestPoolBody = .ok requestPoolDecoded ∧
    (isolhttps.requestPool exampleCodec
        (⟨none, some (stubIpam none)⟩ : isolhttps textApi Nat Nat) ResponseWriter.fresh
        ⟨"POST", "/IpamDriver.RequestPool", requestPoolBody⟩ ⟨0, 0⟩).response =
      some ⟨[], true, 200,
        ["\x7b\"PoolID\":\"p1\",\"Pool\":\"10.2.3.0/24\",\"Data\":\x7b\x7d\x7d\n"]⟩ :=
  ⟨rfl, (C9_requestPool_response exampleCodec _ ⟨0, 0⟩ (stubIpam none) rfl).2
    "POST" "/IpamDriver.RequestPool" 1 rfl rfl⟩

/-! ## Addresses that do not parse -/

theorem errorResponse_fresh_status (m : String) :
    (errorResponse ResponseWriter.fresh m).status = 500 := by
  rw [errorResponse_fresh]; rfl

/-- C10: when the body decodes to `rq`, the IPAM driver is present and `rq.Address` is not
a textual IP address (`net.ParseIP` gives nil), `requestAddress` and `releaseAddress` send
no client error: each calls the driver once, with `rq.PoolID` as decoded and the nil
address, and the status of the reply is 200 or 500 according to the driver's answer. The
empty string is such an address, so the driver sees the same call as for a request without
address. -/
theorem C10_unparsable_address_is_nil {api : Api} {σ τ : Type} (c : Codec api)
    (h : isolhttps api σ τ) (s : State σ τ) (i : Ipam τ) (hi : h.i = some i) :
    (∀ (r : Request) (rq : RequestAddressRequest),
      c.decodeRequestAddressRequest r.Body = .ok rq → ParseIP rq.Address = [] →
      (h.requestAddress c ResponseWriter.fresh r s).calls =
          [.RequestAddress rq.PoolID [] rq.Options] ∧
        (h.requestAddress c ResponseWriter.fresh r s).state =
          { s with i := (i.RequestAddress rq.PoolID [] rq.Options s.i).2 } ∧
        (∀ w, (h.requestAddress c ResponseWriter.fresh r s).response = some w →
          w.status = 200 ∨ w.status = 500)) ∧
    (∀ (r : Request) (rq : ReleaseAddressRequest),
      c.decodeReleaseAddressRequest r.Body = .ok rq → ParseIP rq.Address = [] →
      h.releaseAddress c ResponseWriter.fresh r s =
          .returned (emptyOrErrorResponse ResponseWriter.fresh (i.ReleaseAddress rq.PoolID [] s.i).1)
            { s with i := (i.ReleaseAddress rq.PoolID [] s.i).2 }
            [.ReleaseAddress rq.PoolID []] ∧
        ((emptyOrErrorResponse ResponseWriter.fresh (i.ReleaseAddress rq.PoolID [] s.i).1).status
            = 200 ∨
          (emptyOrErrorResponse ResponseWriter.fresh (i.ReleaseAddress rq.PoolID [] s.i).1).status
            = 500)) ∧
    ParseIP "" = [] ∧ ParseIP "10.2.3.x" = [] ∧ ParseIP "10.2.3.256" = [] ∧
    ParseIP "no address" = [] ∧ ParseIP "10.2.3.5" = [0, 0, 0, 0, 0, 0, 0, 0, 0, 0, 255, 255, 10, 2, 3, 5] := by
  refine ⟨?_, ?_, by decide, by decide, by decide, by decide, by decide⟩
  · intro r rq hdec hparse
    simp only [isolhttps.requestAddress, decode, hdec, hi, hparse]
    cases herr : (i.RequestAddress rq.PoolID [] rq.Options s.i).1.2.2 with
    | some e =>
      simp only [herr]
      refine ⟨rfl, rfl, ?_⟩
      intro w hw
      simp only [Outcome.response, Option.some.injEq] at hw
      subst hw
      right
      exact errorResponse_fresh_status e
    | none =>
      simp only [herr]
      cases haddr : (i.RequestAddress rq.PoolID [] rq.Options s.i).1.1 with
      | none =>
        simp only [haddr]
        refine ⟨rfl, rfl, ?_⟩
        intro w hw
        simp [Outcome.response] at hw
      | some a =>
        simp only [haddr]
        refine ⟨rfl, rfl, ?_⟩
        intro w hw
        simp only [Outcome.response, Option.some.injEq] at hw
        subst hw
        left
        rw [objectResponse_fresh_ok]
        rfl
  · intro r rq hdec hparse
    simp only [isolhttps.releaseAddress, decode, hdec, hi, hparse, true_and]
    cases (i.ReleaseAddress rq.PoolID [] s.i).1 with
    | some e => right; exact errorResponse_fresh_status e
    | none => left; rfl

/-- The address `10.2.3.x` at `requestAddress` and the empty address at `releaseAddress`:
the stub is called with the nil address and the reply has status 200. -/
theorem C10_unparsable_address_witness :
    ParseIP "10.2.3.x" = [] ∧
    (isolhttps.requestAddress exampleCodec
        (⟨none, some (stubIpam none)⟩ : isolhttps textApi Nat Nat) ResponseWriter.fresh
        ⟨"POST", "/IpamDriver.RequestAddress",
          "\x7b\"PoolID\":\"p1\",\"Address\":\"10.2.3.x\"\x7d"⟩ ⟨0, 0⟩).calls =
      [.RequestAddress "p1" [] none] ∧
    isolhttps.releaseAddress exampleCodec
        (⟨none, some (stubIpam none)⟩ : isolhttps textApi Nat Nat) ResponseWriter.fresh
        ⟨"POST", "/IpamDriver.ReleaseAddress",
          "\x7b\"PoolID\":\"p1\",\"Address\":\"\"\x7d"⟩ ⟨0, 0⟩ =
      .returned ⟨[], true, 200, ["\x7b\x7d\n"]⟩ ⟨0, 1⟩ [.ReleaseAddress "p1" []] :=
  ⟨by decide,
   ((C10_unparsable_address_is_nil exampleCodec _ ⟨0, 0⟩ (stubIpam none) rfl).1
      ⟨"POST", "/IpamDriver.RequestAddress",
        "\x7b\"PoolID\":\"p1\",\"Address\":\"10.2.3.x\"\x7d"⟩
      { PoolID := "p1", Address := "10.2.3.x", Options := none } rfl (by decide)).1,
   ((C10_unparsable_address_is_nil exampleCodec _ ⟨0, 0⟩ (stubIpam none) rfl).2.1
      ⟨"POST", "/IpamDriver.ReleaseAddress", "\x7b\"PoolID\":\"p1\",\"Address\":\"\"\x7d"⟩
      { PoolID := "p1", Address := "" } rfl (by decide)).1⟩

end Isolhttps
